import Mathlib

/-!
Shallow embedding of the nesemu NES emulator core (Rust) in Lean 4, with
theorems checking the natural-language specification against the code.

Conventions used throughout:
* Machine integers (`u8`, `u16`) are modelled as `Nat` with explicit masking
  (`% 256`, `% 65536`, `&&&`) exactly where the Rust performs wrapping or
  masking.  Arithmetic that can wrap in release builds (`+=`, `-=` on
  unsigned types) is modelled with the release (wrapping) semantics and a
  comment at the site.
* Fixed-size byte arrays (`Vec<u8>`, `[u8; N]`) are modelled as total
  functions `Nat → Nat` together with the array length where a bounds check
  is observable; a Rust indexing panic (out-of-bounds slice or element
  access) is modelled by returning `none`.
* `panic!` / `unwrap` / `unimplemented!` abort paths are modelled with
  `Option`, `none` standing for the abort.
* I/O-only state (the SDL renderer, the RGB colour table, the audio output
  queue, the `f32`/`f64` mixer levels) is omitted: none of it feeds back
  into any integer field of the emulator state.
-/

set_option maxRecDepth 8000

/-- Pointwise update of a memory function, used for all array writes. -/
def upd (f : Nat → Nat) (i v : Nat) : Nat → Nat :=
  fun j => if j = i then v else f j

/-! ## Controller (src/nes/controller.rs) -/

/-- State of `Controller`: 8 latched key states, the strobe flag and the
read-out index (`key_index: u8`). -/
structure Controller where
  keyState : Nat → Bool
  strobe : Bool
  keyIndex : Nat
deriving Inhabited

/-- `Controller::new`. -/
def Controller.new : Controller :=
  { keyState := fun _ => false, strobe := false, keyIndex := 0 }

/-- `Controller::read_mem`.  Reading `$4016` indexes
`key_state[key_index]` (an 8-element array): `key_index ≥ 8` is an
out-of-bounds panic, modelled as `none`.  With the strobe low the index is
then incremented.  Reading `$4017` returns 0; other addresses panic. -/
def Controller.read_mem (c : Controller) (cpuAddress : Nat) : Option (Nat × Controller) :=
  if cpuAddress = 0x4016 then
    if c.strobe then
      if c.keyIndex < 8 then
        some ((if c.keyState c.keyIndex then 1 else 0), c)
      else
        none
    else
      if c.keyIndex < 8 then
        some ((if c.keyState c.keyIndex then 1 else 0),
              { c with keyIndex := c.keyIndex + 1 })
      else
        none
  else if cpuAddress = 0x4017 then
    some (0, c)
  else
    none

/-- `Controller::write_mem` for `$4016`: bit 0 high sets the strobe and
resets the index; bit 0 low clears the strobe.  Other addresses panic. -/
def Controller.write_mem (c : Controller) (cpuAddress value : Nat) : Option Controller :=
  if cpuAddress = 0x4016 then
    if value &&& 0x01 ≠ 0 then
      some { c with strobe := true, keyIndex := 0 }
    else
      some { c with strobe := false }
  else
    none

/-- Iterated `$4016` reads with the state threaded through; returns the
list of values read so far and the final controller state, `none` as soon
as one read panics. -/
def Controller.readSeq (c : Controller) : Nat → Option (List Nat × Controller)
  | 0 => some ([], c)
  | n + 1 => do
    let (vs, c') ← c.readSeq n
    let (v, c'') ← c'.read_mem 0x4016
    some (vs ++ [v], c'')

example : (Controller.new.readSeq 8).isSome = true := by decide
example : (Controller.new.readSeq 9).isSome = false := by decide

/-! ## CPU opcode table and dispatch (src/nes/cpu.rs) -/

/-- The addressing modes of the 6502 interpreter (src/nes/cpu.rs). -/
inductive AddressingMode where
  | accumulator
  | immediate
  | relative
  | absolute
  | zeroPage
  | zeroPageX
  | zeroPageY
  | implied
  | absoluteX
  | absoluteY
  | indirect
  | indirectX
  | indirectY
deriving DecidableEq, Inhabited

/-- `Cpu::add_instructions`: the opcode table, one `(op_code, mnemonic, addressing_mode)`
entry per `add` call, in source order (split into chunks below purely to keep
elaboration fast). -/
def Cpu.instructionChunk1 : List (Nat × String × AddressingMode) :=
  [(0x01, "ORA", .indirectX),
   (0x03, "*SLO", .indirectX),
   (0x04, "*NOP", .zeroPage),
   (0x05, "ORA", .zeroPage),
   (0x06, "ASL", .zeroPage),
   (0x07, "*SLO", .zeroPage),
   (0x08, "PHP", .implied),
   (0x09, "ORA", .immediate),
   (0x0A, "ASL", .accumulator),
   (0x0C, "*NOP", .absolute),
   (0x0D, "ORA", .absolute),
   (0x0E, "ASL", .absolute),
   (0x0F, "*SLO", .absolute),
   (0x10, "BPL", .relative),
   (0x11, "ORA", .indirectY),
   (0x13, "*SLO", .indirectY),
   (0x14, "*NOP", .zeroPageX),
   (0x15, "ORA", .zeroPageX),
   (0x16, "ASL", .zeroPageX),
   (0x17, "*SLO", .zeroPageX),
   (0x18, "CLC", .implied),
   (0x19, "ORA", .absoluteY),
   (0x1A, "*NOP", .implied),
   (0x1B, "*SLO", .absoluteY),
   (0x1C, "*NOP", .absoluteX),
   (0x1D, "ORA", .absoluteX),
   (0x1E, "ASL", .absoluteX),
   (0x1F, "*SLO", .absoluteX),
   (0x20, "JSR", .absolute),
   (0x21, "AND", .indirectX),
   (0x23, "*RLA", .indirectX),
   (0x25, "AND", .zeroPage),
   (0x27, "*RLA", .zeroPage),
   (0x28, "PLP", .implied),
   (0x24, "BIT", .zeroPage),
   (0x26, "ROL", .zeroPage),
   (0x29, "AND", .immediate),
   (0x2A, "ROL", .accumulator),
   (0x2C, "BIT", .absolute),
   (0x2D, "AND", .absolute),
   (0x2E, "ROL", .absolute),
   (0x2F, "*RLA", .absolute),
   (0x30, "BMI", .relative),
   (0x31, "AND", .indirectY),
   (0x33, "*RLA", .indirectY)]

def Cpu.instructionChunk2 : List (Nat × String × AddressingMode) :=
  [(0x34, "*NOP", .zeroPageX),
   (0x35, "AND", .zeroPageX),
   (0x36, "ROL", .zeroPageX),
   (0x37, "*RLA", .zeroPageX),
   (0x38, "SEC", .implied),
   (0x39, "AND", .absoluteY),
   (0x3A, "*NOP", .implied),
   (0x3B, "*RLA", .absoluteY),
   (0x3C, "*NOP", .absoluteX),
   (0x3D, "AND", .absoluteX),
   (0x3E, "ROL", .absoluteX),
   (0x3F, "*RLA", .absoluteX),
   (0x40, "RTI", .implied),
   (0x41, "EOR", .indirectX),
   (0x43, "*SRE", .indirectX),
   (0x44, "*NOP", .zeroPage),
   (0x45, "EOR", .zeroPage),
   (0x46, "LSR", .zeroPage),
   (0x47, "*SRE", .zeroPage),
   (0x48, "PHA", .implied),
   (0x49, "EOR", .immediate),
   (0x4A, "LSR", .accumulator),
   (0x4C, "JMP", .absolute),
   (0x4D, "EOR", .absolute),
   (0x4E, "LSR", .absolute),
   (0x4F, "*SRE", .absolute),
   (0x50, "BVC", .relative),
   (0x51, "EOR", .indirectY),
   (0x53, "*SRE", .indirectY),
   (0x54, "*NOP", .zeroPageX),
   (0x55, "EOR", .zeroPageX),
   (0x56, "LSR", .zeroPageX),
   (0x57, "*SRE", .zeroPageX),
   (0x59, "EOR", .absoluteY),
   (0x5A, "*NOP", .implied),
   (0x5B, "*SRE", .absoluteY),
   (0x5C, "*NOP", .absoluteX),
   (0x5D, "EOR", .absoluteX),
   (0x5E, "LSR", .absoluteX),
   (0x5F, "*SRE", .absoluteX),
   (0x60, "RTS", .implied),
   (0x61, "ADC", .indirectX),
   (0x63, "*RRA", .indirectX),
   (0x64, "*NOP", .zeroPage),
   (0x65, "ADC", .zeroPage)]

def Cpu.instructionChunk3 : List (Nat × String × AddressingMode) :=
  [(0x66, "ROR", .zeroPage),
   (0x67, "*RRA", .zeroPage),
   (0x68, "PLA", .implied),
   (0x69, "ADC", .immediate),
   (0x6A, "ROR", .accumulator),
   (0x6C, "JMP", .indirect),
   (0x6D, "ADC", .absolute),
   (0x6E, "ROR", .absolute),
   (0x6F, "*RRA", .absolute),
   (0x70, "BVS", .relative),
   (0x71, "ADC", .indirectY),
   (0x73, "*RRA", .indirectY),
   (0x74, "*NOP", .zeroPageX),
   (0x75, "ADC", .zeroPageX),
   (0x76, "ROR", .zeroPageX),
   (0x77, "*RRA", .zeroPageX),
   (0x78, "SEI", .implied),
   (0x79, "ADC", .absoluteY),
   (0x7A, "*NOP", .implied),
   (0x7B, "*RRA", .absoluteY),
   (0x7C, "*NOP", .absoluteX),
   (0x7D, "ADC", .absoluteX),
   (0x7E, "ROR", .absoluteX),
   (0x7F, "*RRA", .absoluteX),
   (0x80, "*NOP", .immediate),
   (0x81, "STA", .indirectX),
   (0x83, "*SAX", .indirectX),
   (0x84, "STY", .zeroPage),
   (0x85, "STA", .zeroPage),
   (0x86, "STX", .zeroPage),
   (0x87, "*SAX", .zeroPage),
   (0x88, "DEY", .implied),
   (0x8A, "TXA", .implied),
   (0x8C, "STY", .absolute),
   (0x8D, "STA", .absolute),
   (0x8E, "STX", .absolute),
   (0x8F, "*SAX", .absolute),
   (0x90, "BCC", .relative),
   (0x91, "STA", .indirectY),
   (0x94, "STY", .zeroPageX),
   (0x95, "STA", .zeroPageX),
   (0x96, "STX", .zeroPageY),
   (0x97, "*SAX", .zeroPageY),
   (0x98, "TYA", .implied),
   (0x99, "STA", .absoluteY)]

def Cpu.instructionChunk4 : List (Nat × String × AddressingMode) :=
  [(0x9A, "TXS", .implied),
   (0x9D, "STA", .absoluteX),
   (0xA0, "LDY", .immediate),
   (0xA1, "LDA", .indirectX),
   (0xA2, "LDX", .immediate),
   (0xA3, "*LAX", .indirectX),
   (0xA4, "LDY", .zeroPage),
   (0xA5, "LDA", .zeroPage),
   (0xA6, "LDX", .zeroPage),
   (0xA7, "*LAX", .zeroPage),
   (0xA8, "TAY", .implied),
   (0xA9, "LDA", .immediate),
   (0xAA, "TAX", .implied),
   (0xAC, "LDY", .absolute),
   (0xAD, "LDA", .absolute),
   (0xAE, "LDX", .absolute),
   (0xAF, "*LAX", .absolute),
   (0xB0, "BCS", .relative),
   (0xB1, "LDA", .indirectY),
   (0xB3, "*LAX", .indirectY),
   (0xB4, "LDY", .zeroPageX),
   (0xB5, "LDA", .zeroPageX),
   (0xB6, "LDX", .zeroPageY),
   (0xB7, "*LAX", .zeroPageY),
   (0xB8, "CLV", .implied),
   (0xB9, "LDA", .absoluteY),
   (0xBA, "TSX", .implied),
   (0xBC, "LDY", .absoluteX),
   (0xBD, "LDA", .absoluteX),
   (0xBE, "LDX", .absoluteY),
   (0xBF, "*LAX", .absoluteY),
   (0xC0, "CPY", .immediate),
   (0xC1, "CMP", .indirectX),
   (0xC3, "*DCP", .indirectX),
   (0xC4, "CPY", .zeroPage),
   (0xC5, "CMP", .zeroPage),
   (0xC6, "DEC", .zeroPage),
   (0xC7, "*DCP", .zeroPage),
   (0xC8, "INY", .implied),
   (0xC9, "CMP", .immediate),
   (0xCA, "DEX", .implied),
   (0xCC, "CPY", .absolute),
   (0xCD, "CMP", .absolute),
   (0xCE, "DEC", .absolute),
   (0xCF, "*DCP", .absolute)]

def Cpu.instructionChunk5 : List (Nat × String × AddressingMode) :=
  [(0xD0, "BNE", .relative),
   (0xD1, "CMP", .indirectY),
   (0xD3, "*DCP", .indirectY),
   (0xD4, "*NOP", .zeroPageX),
   (0xD5, "CMP", .zeroPageX),
   (0xD6, "DEC", .zeroPageX),
   (0xD7, "*DCP", .zeroPageX),
   (0xD8, "CLD", .implied),
   (0xD9, "CMP", .absoluteY),
   (0xDA, "*NOP", .implied),
   (0xDB, "*DCP", .absoluteY),
   (0xDC, "*NOP", .absoluteX),
   (0xDD, "CMP", .absoluteX),
   (0xDE, "DEC", .absoluteX),
   (0xDF, "*DCP", .absoluteX),
   (0xE0, "CPX", .immediate),
   (0xE1, "SBC", .indirectX),
   (0xE3, "*ISB", .indirectX),
   (0xE4, "CPX", .zeroPage),
   (0xE5, "SBC", .zeroPage),
   (0xE6, "INC", .zeroPage),
   (0xE7, "*ISB", .zeroPage),
   (0xE8, "INX", .implied),
   (0xE9, "SBC", .immediate),
   (0xEA, "NOP", .implied),
   (0xEB, "*SBC", .immediate),
   (0xEC, "CPX", .absolute),
   (0xED, "SBC", .absolute),
   (0xEE, "INC", .absolute),
   (0xEF, "*ISB", .absolute),
   (0xF0, "BEQ", .relative),
   (0xF1, "SBC", .indirectY),
   (0xF3, "*ISB", .indirectY),
   (0xF4, "*NOP", .zeroPageX),
   (0xF5, "SBC", .zeroPageX),
   (0xF6, "INC", .zeroPageX),
   (0xF7, "*ISB", .zeroPageX),
   (0xF8, "SED", .implied),
   (0xF9, "SBC", .absoluteY),
   (0xFA, "*NOP", .implied),
   (0xFB, "*ISB", .absoluteY),
   (0xFC, "*NOP", .absoluteX),
   (0xFD, "SBC", .absoluteX),
   (0xFE, "INC", .absoluteX),
   (0xFF, "*ISB", .absoluteX)]

/-- The full opcode table of `Cpu::add_instructions`. -/
def Cpu.instructionList : List (Nat × String × AddressingMode) :=
  Cpu.instructionChunk1 ++ Cpu.instructionChunk2 ++ Cpu.instructionChunk3 ++ Cpu.instructionChunk4 ++ Cpu.instructionChunk5

/-- The `HashMap` lookup done at the top of `Cpu::execute_instruction`;
a miss is the fatal `.unwrap()` abort. -/
def Cpu.add_instructions (opCode : Nat) : Option (String × AddressingMode) :=
  (Cpu.instructionList.lookup opCode)

/-- The opcodes carrying a handler arm in the `match op_code` of
`Cpu::execute_instruction` (one sublist per arm, in source order);
anything else falls into the final fatal `panic!("unexpected opcode")` arm. -/
def Cpu.executeArmOpcodes : List Nat :=
  [0x01, 0x05, 0x09, 0x0D, 0x11, 0x15, 0x19, 0x1D] ++ -- ORA
  [0x03, 0x07, 0x0F, 0x13, 0x17, 0x1B, 0x1F] ++ -- *SLO
  [0x06, 0x0A, 0x0E, 0x16, 0x1E] ++ -- ASL
  [0x08] ++ -- PHP
  [0x10] ++ -- BPL
  [0x18] ++ -- CLC
  [0x20] ++ -- JSR
  [0x24, 0x2C] ++ -- BIT
  [0x28] ++ -- PLP
  [0x21, 0x25, 0x29, 0x2D, 0x31, 0x35, 0x39, 0x3D] ++ -- AND
  [0x23, 0x27, 0x2F, 0x33, 0x37, 0x3B, 0x3F] ++ -- *RLA
  [0x26, 0x2A, 0x2E, 0x36, 0x3E] ++ -- ROL
  [0x30] ++ -- BMI
  [0x38] ++ -- SEC
  [0x40] ++ -- RTI
  [0x48] ++ -- PHA
  [0x4C, 0x6C] ++ -- JMP
  [0x41, 0x45, 0x49, 0x4D, 0x51, 0x55, 0x59, 0x5D] ++ -- EOR
  [0x43, 0x47, 0x4F, 0x53, 0x57, 0x5B, 0x5F] ++ -- *SRE
  [0x46, 0x4A, 0x4E, 0x56, 0x5E] ++ -- LSR
  [0x50] ++ -- BVC
  [0x60] ++ -- RTS
  [0x68] ++ -- PLA
  [0x61, 0x65, 0x69, 0x6D, 0x71, 0x75, 0x79, 0x7D] ++ -- ADC
  [0x63, 0x67, 0x6F, 0x73, 0x77, 0x7B, 0x7F] ++ -- *RRA
  [0x66, 0x6A, 0x6E, 0x76, 0x7E] ++ -- ROR
  [0x70] ++ -- BVS
  [0x78] ++ -- SEI
  [0x81, 0x85, 0x8D, 0x91, 0x95, 0x99, 0x9D] ++ -- STA
  [0x83, 0x87, 0x8F, 0x97] ++ -- *SAX
  [0x84, 0x8C, 0x94] ++ -- STY
  [0x86, 0x8E, 0x96] ++ -- STX
  [0x88] ++ -- DEY
  [0x8A] ++ -- TXA
  [0x90] ++ -- BCC
  [0x98] ++ -- TYA
  [0x9A] ++ -- TXS
  [0xA0, 0xA4, 0xAC, 0xB4, 0xBC] ++ -- LDY
  [0xA2, 0xA6, 0xAE, 0xB6, 0xBE] ++ -- LDX
  [0xA3, 0xA7, 0xAF, 0xB3, 0xB7, 0xBF] ++ -- *LAX
  [0xA8] ++ -- TAY
  [0xA1, 0xA5, 0xA9, 0xAD, 0xB1, 0xB5, 0xB9, 0xBD] ++ -- LDA
  [0xAA] ++ -- TAX
  [0xB0] ++ -- BCS
  [0xB8] ++ -- CLV
  [0xBA] ++ -- TSX
  [0xC0, 0xC4, 0xCC] ++ -- CPY
  [0xC8] ++ -- INY
  [0xC1, 0xC5, 0xC9, 0xCD, 0xD1, 0xD5, 0xD9, 0xDD] ++ -- CMP
  [0xC3, 0xC7, 0xCF, 0xD3, 0xD7, 0xDB, 0xDF] ++ -- *DCP
  [0xC6, 0xCE, 0xD6, 0xDE] ++ -- DEC
  [0xCA] ++ -- DEX
  [0xD0] ++ -- BNE
  [0xD8] ++ -- CLD
  [0xE0, 0xE4, 0xEC] ++ -- CPX
  [0xE3, 0xE7, 0xEF, 0xF3, 0xF7, 0xFB, 0xFF] ++ -- *ISB
  [0xE6, 0xEE, 0xF6, 0xFE] ++ -- INC
  [0xE8] ++ -- INX
  [0xE1, 0xE5, 0xE9, 0xED, 0xF1, 0xF5, 0xF9, 0xFD, 0xEB] ++ -- SBC
  [0x04, 0x0C, 0x14, 0x1A, 0x1C, 0x34, 0x3A, 0x3C, 0x44, 0x54, 0x5A, 0x5C, 0x64, 0x74, 0x7A, 0x7C, 0x80, 0xD4, 0xDA, 0xDC, 0xEA, 0xF4, 0xFA, 0xFC] ++ -- NOP
  [0xF0] ++ -- BEQ
  [0xF8] --  SED

/-- Whether `Cpu::execute_instruction` has a handler arm for the opcode. -/
def Cpu.executeHasArm (opCode : Nat) : Bool :=
  Cpu.executeArmOpcodes.contains opCode

/-- `Cpu::execute_instruction` completes dispatch for an opcode exactly when
the table lookup succeeds (otherwise `.unwrap()` aborts) and the opcode has
a handler arm (otherwise the final `panic!` arm aborts). -/
def Cpu.dispatches (opCode : Nat) : Bool :=
  (Cpu.add_instructions opCode).isSome && Cpu.executeHasArm opCode

/-- The 151 official 6502 opcodes, as enumerated in the standard MOS 6502
documentation that the spec refers to ("All 151 official opcodes").  This
is the spec-side reference set, not derived from the repository. -/
def officialOpcodes : List Nat :=
  [0x69, 0x65, 0x75, 0x6D, 0x7D, 0x79, 0x61, 0x71,  -- ADC
   0x29, 0x25, 0x35, 0x2D, 0x3D, 0x39, 0x21, 0x31,  -- AND
   0x0A, 0x06, 0x16, 0x0E, 0x1E,                    -- ASL
   0x90, 0xB0, 0xF0, 0x30, 0xD0, 0x10, 0x50, 0x70,  -- BCC BCS BEQ BMI BNE BPL BVC BVS
   0x24, 0x2C,                                      -- BIT
   0x00,                                            -- BRK
   0x18, 0xD8, 0x58, 0xB8,                          -- CLC CLD CLI CLV
   0xC9, 0xC5, 0xD5, 0xCD, 0xDD, 0xD9, 0xC1, 0xD1,  -- CMP
   0xE0, 0xE4, 0xEC,                                -- CPX
   0xC0, 0xC4, 0xCC,                                -- CPY
   0xC6, 0xD6, 0xCE, 0xDE,                          -- DEC
   0xCA, 0x88,                                      -- DEX DEY
   0x49, 0x45, 0x55, 0x4D, 0x5D, 0x59, 0x41, 0x51,  -- EOR
   0xE6, 0xF6, 0xEE, 0xFE,                          -- INC
   0xE8, 0xC8,                                      -- INX INY
   0x4C, 0x6C, 0x20,                                -- JMP JSR
   0xA9, 0xA5, 0xB5, 0xAD, 0xBD, 0xB9, 0xA1, 0xB1,  -- LDA
   0xA2, 0xA6, 0xB6, 0xAE, 0xBE,                    -- LDX
   0xA0, 0xA4, 0xB4, 0xAC, 0xBC,                    -- LDY
   0x4A, 0x46, 0x56, 0x4E, 0x5E,                    -- LSR
   0xEA,                                            -- NOP
   0x09, 0x05, 0x15, 0x0D, 0x1D, 0x19, 0x01, 0x11,  -- ORA
   0x48, 0x08, 0x68, 0x28,                          -- PHA PHP PLA PLP
   0x2A, 0x26, 0x36, 0x2E, 0x3E,                    -- ROL
   0x6A, 0x66, 0x76, 0x6E, 0x7E,                    -- ROR
   0x40, 0x60,                                      -- RTI RTS
   0xE9, 0xE5, 0xF5, 0xED, 0xFD, 0xF9, 0xE1, 0xF1,  -- SBC
   0x38, 0xF8, 0x78,                                -- SEC SED SEI
   0x85, 0x95, 0x8D, 0x9D, 0x99, 0x81, 0x91,        -- STA
   0x86, 0x96, 0x8E,                                -- STX
   0x84, 0x94, 0x8C,                                -- STY
   0xAA, 0xA8, 0xBA, 0x8A, 0x9A, 0x98]              -- TAX TAY TSX TXA TXS TYA

example : officialOpcodes.length = 151 := by decide
example : Cpu.dispatches 0x00 = false := by decide
example : Cpu.dispatches 0x58 = false := by decide
example : Cpu.dispatches 0xA9 = true := by decide

/-! ## Cartridge and mappers (src/nes/cartridge.rs) -/

/-- Nametable mirroring policy. -/
inductive MirroringType where
  | horizontal
  | vertical
deriving DecidableEq, Inhabited

/-- The fields of the `Mapper::MMC1` variant.  `shift`/`shift_count` form
the 5-stage serial shift register; `prg_ram` is the 8 KiB PRG-RAM and
`chr_ram` the optional 8 KiB CHR-RAM. -/
structure Mmc1 where
  shift : Nat
  shiftCount : Nat
  mirroring : MirroringType
  prgSwapRangeBit : Bool
  prgSizeBit : Bool
  chrSizeBit : Bool
  chrBank0 : Nat
  chrBank1 : Nat
  prgBank : Nat
  prgRam : Nat → Nat
  chrRam : Option (Nat → Nat)
deriving Inhabited

/-- The tagged mapper variant `{NROM, MMC1, CNROM}`. -/
inductive Mapper where
  | nrom
  | mmc1 (s : Mmc1)
  | cnrom (bank : Nat)
deriving Inhabited

/-- The ROM image data of `NesRomFile` that the mappers read (the header
bytes and file path are I/O-only and omitted); the explicit lengths model
the `Vec` lengths used by the bounds checks. -/
structure NesRomFile where
  prgRom : Nat → Nat
  prgRomLen : Nat
  chrRom : Nat → Nat
  chrRomLen : Nat
  mirroring : MirroringType
deriving Inhabited

/-- `Cartridge` state: the ROM file contents and the mapper variant. -/
structure Cartridge where
  rom : NesRomFile
  mapper : Mapper
deriving Inhabited

/-- `Cartridge::read_mem_cpu`; `none` models an out-of-range `prg_rom`
index panic. -/
def Cartridge.read_mem_cpu (c : Cartridge) (address : Nat) : Option Nat :=
  match c.mapper with
  | .nrom | .cnrom _ =>
    if address < 0x8000 then
      some 0xFF
    else
      let memAddress :=
        if c.rom.prgRomLen = 16384 then (address - 0x8000) &&& 0x3FFF
        else address - 0x8000
      if memAddress < c.rom.prgRomLen then some (c.rom.prgRom memAddress) else none
  | .mmc1 s =>
    if address < 0x6000 then
      some 0xFF
    else if address < 0x8000 then
      if s.prgBank &&& 0x10 = 0 then some (s.prgRam (address - 0x6000)) else some 0xFF
    else
      let memAddress :=
        if s.prgSizeBit then -- 16KB switching
          let bank := s.prgBank &&& 0xF
          let numBanks := c.rom.prgRomLen / 16384
          let p := if address ≥ 0xC000 then (false, address - 0xC000)
                   else (true, address - 0x8000)
          let effectiveBank :=
            if p.1 = s.prgSwapRangeBit then bank
            else if p.1 then 0
            else numBanks - 1
          effectiveBank * 16384 + p.2
        else -- 32KB switching
          let bank := (s.prgBank &&& 0xF) / 2
          bank * 32768 + address - 0x8000
      if memAddress < c.rom.prgRomLen then some (c.rom.prgRom memAddress) else none

/-- `Cartridge::write_mem_cpu`; `none` models the `unimplemented!()` abort
when an MMC1 control commit carries a one-screen mirroring value. -/
def Cartridge.write_mem_cpu (c : Cartridge) (address value : Nat) : Option Cartridge :=
  match c.mapper with
  | .nrom => some c
  | .mmc1 s =>
    if address < 0x6000 then
      some c
    else if address < 0x8000 then
      if s.prgBank &&& 0x10 = 0 then
        some { c with mapper := .mmc1 { s with prgRam := upd s.prgRam (address - 0x6000) value } }
      else
        some c
    else
      if value &&& 0x80 ≠ 0 then
        some { c with mapper := .mmc1 { s with shift := 0, shiftCount := 0 } }
      else
        let shift := (s.shift >>> 1) ||| (if value &&& 0x1 ≠ 0 then 0x10 else 0)
        let shiftCount := s.shiftCount + 1
        if shiftCount = 5 then
          let effectiveAddress := 0x8000 ||| (address &&& 0x6000)
          let effectiveValue := shift
          if effectiveAddress < 0xA000 then
            let newMirroring : Option MirroringType :=
              match effectiveValue &&& 0x3 with
              | 2 => some .vertical
              | 3 => some .horizontal
              | _ => none
            match newMirroring with
            | none => none
            | some mt =>
              let s2 : Mmc1 :=
                { s with shift := 0, shiftCount := 0, mirroring := mt,
                         prgSwapRangeBit := effectiveValue &&& 0x4 ≠ 0,
                         prgSizeBit := effectiveValue &&& 0x8 ≠ 0,
                         chrSizeBit := effectiveValue &&& 0x10 ≠ 0 }
              some { c with mapper := .mmc1 s2 }
          else if effectiveAddress < 0xC000 then
            some { c with mapper := .mmc1 { s with shift := 0, shiftCount := 0, chrBank0 := effectiveValue } }
          else if effectiveAddress < 0xE000 then
            some { c with mapper := .mmc1 { s with shift := 0, shiftCount := 0, chrBank1 := effectiveValue } }
          else
            some { c with mapper := .mmc1 { s with shift := 0, shiftCount := 0, prgBank := effectiveValue &&& 0xF } }
        else
          some { c with mapper := .mmc1 { s with shift := shift, shiftCount := shiftCount } }
  | .cnrom _ =>
    if address ≥ 0x8000 then some { c with mapper := .cnrom value } else some c

/-- `Cartridge::get_chr_mem_index`. -/
def Cartridge.get_chr_mem_index (address : Nat) (chrSizeBit : Bool)
    (chrBank0 chrBank1 : Nat) : Nat :=
  if chrSizeBit then
    if address < 0x1000 then chrBank0 * 0x1000 + address
    else chrBank1 * 0x1000 + address - 0x1000
  else
    (chrBank0 / 2) * 0x2000 + address

/-- The nametable VRAM index used for PPU addresses in `$2000-$2FFF`
(shared by `read_mem_ppu` and `write_mem_ppu`). -/
def Cartridge.vramAddressOf (c : Cartridge) (address : Nat) : Nat :=
  if c.rom.mirroring = .vertical then
    (address &&& 0xF7FF) - 0x2000
  else
    ((address &&& 0xF3FF) ||| ((address >>> 1) &&& 0x0400)) - 0x2000

/-- `Cartridge::read_mem_ppu`; `none` models an out-of-range CHR index
panic and the `panic!` for addresses `≥ $3F00`.  The source's recursion
(a single mirror step, recursing from `$3000-$3EFF` to `address - $1000`)
is expressed with a structural fuel of 2 so the definition computes by
kernel reduction; fuel 0 is unreachable. -/
def Cartridge.readMemPpuGo (c : Cartridge) (vram : Nat → Nat) :
    Nat → Nat → Option Nat
  | 0, _ => none
  | fuel + 1, address =>
    if address < 0x2000 then
      match c.mapper with
      | .nrom =>
        if address < c.rom.chrRomLen then some (c.rom.chrRom address) else none
      | .mmc1 s =>
        let index := Cartridge.get_chr_mem_index address s.chrSizeBit s.chrBank0 s.chrBank1
        match s.chrRam with
        | some ram => if index < 8192 then some (ram index) else none
        | none => if index < c.rom.chrRomLen then some (c.rom.chrRom index) else none
      | .cnrom bank =>
        let i := bank * 0x2000 + address
        if i < c.rom.chrRomLen then some (c.rom.chrRom i) else none
    else if address < 0x3000 then
      some (vram (c.vramAddressOf address))
    else if address < 0x3F00 then
      c.readMemPpuGo vram fuel (address - 0x1000)
    else
      none

/-- `Cartridge::read_mem_ppu` (entry point). -/
def Cartridge.read_mem_ppu (c : Cartridge) (address : Nat) (vram : Nat → Nat) : Option Nat :=
  c.readMemPpuGo vram 2 address

/-- `Cartridge::write_mem_ppu`; returns the updated cartridge and VRAM,
`none` modelling the panics (CHR index out of range, address `≥ $3F00`).
Writes to CHR-ROM (`NROM`/`CNROM`, or MMC1 without CHR-RAM) are dropped as
in the source.  Structural fuel as in `readMemPpuGo`. -/
def Cartridge.writeMemPpuGo (c : Cartridge) (value : Nat) (vram : Nat → Nat) :
    Nat → Nat → Option (Cartridge × (Nat → Nat))
  | 0, _ => none
  | fuel + 1, address =>
    if address < 0x2000 then
      match c.mapper with
      | .nrom | .cnrom _ => some (c, vram)
      | .mmc1 s =>
        match s.chrRam with
        | some ram =>
          let index := Cartridge.get_chr_mem_index address s.chrSizeBit s.chrBank0 s.chrBank1
          if index < 8192 then
            some ({ c with mapper := .mmc1 { s with chrRam := some (upd ram index value) } }, vram)
          else
            none
        | none => some (c, vram)
    else if address < 0x3000 then
      some (c, upd vram (c.vramAddressOf address) value)
    else if address < 0x3F00 then
      c.writeMemPpuGo value vram fuel (address - 0x1000)
    else
      none

/-- `Cartridge::write_mem_ppu` (entry point). -/
def Cartridge.write_mem_ppu (c : Cartridge) (address value : Nat) (vram : Nat → Nat) :
    Option (Cartridge × (Nat → Nat)) :=
  c.writeMemPpuGo value vram 2 address

/-! ## PPU (src/nes/ppu.rs) -/

/-- Reinterpret a `u16` value as an `i16` (used by the sprite row and sweep
arithmetic). -/
def i16OfU16 (n : Nat) : Int :=
  if n < 0x8000 then (n : Int) else (n : Int) - 0x10000

/-- Truncate an integer to a `u16` (two's-complement wrap). -/
def u16OfInt (z : Int) : Nat :=
  (z.emod 0x10000).toNat

/-- The PPU scroll/shift register file (`Registers` in src/nes/ppu.rs). -/
structure PpuRegisters where
  v : Nat
  t : Nat
  x : Nat
  w : Bool
  bgPatternUpper : Nat
  bgPatternLower : Nat
  bgAttributeLatch : Nat
  bgAttributeUpper : Nat
  bgAttributeLower : Nat
deriving Inhabited

/-- PPU state.  `vram` is the 2 KiB nametable RAM, `paletteRam` the 32-byte
palette, `oam` 256 bytes, `secondaryOam` 32 bytes.  The SDL renderers and
the fixed RGB colour table are output-only and omitted. -/
structure Ppu where
  scanLine : Int
  cycleCount : Nat
  vblank : Bool
  vramAddrIncrement : Nat
  genNmiAtVblank : Bool
  memReadMutEnabled : Bool
  backgroundLeftmostEnabled : Bool
  spritesLeftmostEnabled : Bool
  backgroundEnabled : Bool
  spritesEnabled : Bool
  vram : Nat → Nat
  paletteRam : Nat → Nat
  oam : Nat → Nat
  secondaryOam : Nat → Nat
  oamAddr : Nat
  reg : PpuRegisters
  bgPatternTableAddr : Nat
  spritePatternTableAddr : Nat
  spriteHeight : Nat
  sprite0Enabled : Bool
  sprite0Hit : Bool
deriving Inhabited

/-- Sprite front/back priority. -/
inductive SpritePriority where
  | back
  | front
deriving DecidableEq, Inhabited

/-- `copy_bits` (u16): replace the masked bits of `dest` by those of `src`. -/
def copy_bits (dest src mask : Nat) : Nat :=
  (dest &&& (0xFFFF ^^^ mask)) ||| (src &&& mask)

/-- `Ppu::new` (the reset values of all modelled fields). -/
def Ppu.new : Ppu :=
  { scanLine := 0, cycleCount := 0, vblank := false, vramAddrIncrement := 1,
    genNmiAtVblank := false, memReadMutEnabled := true,
    backgroundLeftmostEnabled := true, spritesLeftmostEnabled := true,
    backgroundEnabled := true, spritesEnabled := true,
    vram := fun _ => 0, paletteRam := fun _ => 0, oam := fun _ => 0,
    secondaryOam := fun _ => 0xFF, oamAddr := 0,
    reg := { t := 0, v := 0, x := 0, w := false, bgPatternUpper := 0,
             bgPatternLower := 0, bgAttributeLatch := 0,
             bgAttributeUpper := 0, bgAttributeLower := 0 },
    bgPatternTableAddr := 0, spritePatternTableAddr := 0, spriteHeight := 8,
    sprite0Enabled := false, sprite0Hit := false }

/-- The palette-RAM index used by `Ppu::read_mem_ppu`/`write_mem_ppu` for a
PPU address in `$3F00-$3FFF`: mask to `$3F00-$3F1F`, then remap
`$3F10/$3F14/$3F18/$3F1C` down by `$10`. -/
def Ppu.paletteIndexOf (ppuAddress : Nat) : Nat :=
  let paletteAddress := ppuAddress &&& 0xFF1F
  if paletteAddress &&& 0xFFF3 = 0x3F10 then
    (paletteAddress - 0x10) - 0x3F00
  else
    paletteAddress - 0x3F00

/-- `Ppu::read_mem_ppu`: cartridge/VRAM below `$3F00`, palette RAM in
`$3F00-$3FFF`, panic (`none`) above. -/
def Ppu.read_mem_ppu (p : Ppu) (ppuAddress : Nat) (cart : Cartridge) : Option Nat :=
  if ppuAddress < 0x3F00 then
    cart.read_mem_ppu ppuAddress p.vram
  else if ppuAddress < 0x4000 then
    some (p.paletteRam (Ppu.paletteIndexOf ppuAddress))
  else
    none

/-- `Ppu::write_mem_ppu`; writes at `$4000` and above are silently ignored
(the panic there is commented out in the source). -/
def Ppu.write_mem_ppu (p : Ppu) (ppuAddress value : Nat) (cart : Cartridge) :
    Option (Ppu × Cartridge) :=
  if ppuAddress < 0x3F00 then do
    let (cart', vram') ← cart.write_mem_ppu ppuAddress value p.vram
    some ({ p with vram := vram' }, cart')
  else if ppuAddress < 0x4000 then
    some ({ p with paletteRam := upd p.paletteRam (Ppu.paletteIndexOf ppuAddress) value }, cart)
  else
    some (p, cart)

/-- `Ppu::get_background_pixel`. -/
def Ppu.get_background_pixel (p : Ppu) : Nat :=
  if p.backgroundEnabled = false ∨ (p.cycleCount < 8 ∧ p.backgroundLeftmostEnabled = false) then
    0
  else
    let bgAttributeUpper := if p.reg.bgAttributeUpper &&& (0x80 >>> p.reg.x) ≠ 0 then 1 else 0
    let bgAttributeLower := if p.reg.bgAttributeLower &&& (0x80 >>> p.reg.x) ≠ 0 then 1 else 0
    let bgPatternUpper := if p.reg.bgPatternUpper &&& (0x8000 >>> p.reg.x) ≠ 0 then 1 else 0
    let bgPatternLower := if p.reg.bgPatternLower &&& (0x8000 >>> p.reg.x) ≠ 0 then 1 else 0
    (bgAttributeUpper <<< 3) ||| (bgAttributeLower <<< 2) |||
      (bgPatternUpper <<< 1) ||| (bgPatternLower <<< 0)

/-- The `for i in 0..8` loop body of `Ppu::get_sprite_pixel`, recursing on
the number of slots left (`i = 8 - fuel`); `none` models a panicking
pattern-table read. -/
def Ppu.spritePixelLoop (p : Ppu) (cart : Cartridge) (x : Nat) (y : Int) :
    Nat → Option (Nat × SpritePriority × Bool)
  | 0 => some (0, .back, false)
  | fuel + 1 =>
    let i := 8 - (fuel + 1)
    let spriteY : Int := p.secondaryOam (i * 4)
    let spriteX := p.secondaryOam (i * 4 + 3)
    if spriteX ≤ x ∧ x < spriteX + 8 ∧ spriteY < 0xEF then
      -- `(y - 1 - sprite_y) as u16`: two's-complement wrap of the i16 value
      let tileX0 := x - spriteX
      let tileY0 := u16OfInt (y - 1 - spriteY)
      let tileIndex := p.secondaryOam (i * 4 + 1)
      let paletteBits := 4 + (p.secondaryOam (i * 4 + 2) &&& 0x3)
      let priority : SpritePriority :=
        if p.secondaryOam (i * 4 + 2) &&& 0x20 ≠ 0 then .back else .front
      let flipHoriz := p.secondaryOam (i * 4 + 2) &&& 0x40 ≠ 0
      let flipVert := p.secondaryOam (i * 4 + 2) &&& 0x80 ≠ 0
      let tileX := if flipHoriz then 7 - tileX0 else tileX0
      -- `7 - tile_y` on u16 wraps when tile_y > 7 (release semantics)
      let tileY := if flipVert then u16OfInt (7 - (tileY0 : Int)) else tileY0
      let patternAddressLower := p.spritePatternTableAddr ||| (tileIndex <<< 4) ||| tileY
      let patternAddressUpper := patternAddressLower ||| 0x0008
      -- (the diagnostic println for pattern_address_lower > 0x4000 is I/O-only)
      match p.read_mem_ppu patternAddressLower cart, p.read_mem_ppu patternAddressUpper cart with
      | some bitmapRowLower, some bitmapRowUpper =>
        let patternBitLower := bitmapRowLower &&& (0x80 >>> tileX) ≠ 0
        let patternBitUpper := bitmapRowUpper &&& (0x80 >>> tileX) ≠ 0
        let patternBits := (if patternBitUpper then 2 else 0) + (if patternBitLower then 1 else 0)
        let index := (paletteBits <<< 2) ||| patternBits
        if patternBits ≠ 0 then
          some (index, priority, i = 0 ∧ p.sprite0Enabled)
        else
          Ppu.spritePixelLoop p cart x y fuel
      | _, _ => none
    else
      Ppu.spritePixelLoop p cart x y fuel

/-- `Ppu::get_sprite_pixel`. -/
def Ppu.get_sprite_pixel (p : Ppu) (cart : Cartridge) : Option (Nat × SpritePriority × Bool) :=
  if p.spritesEnabled ∧ (p.cycleCount ≥ 8 ∨ p.spritesLeftmostEnabled) then
    Ppu.spritePixelLoop p cart p.cycleCount p.scanLine 8
  else
    some (0, .back, false)

/-- The pixel selection of `Ppu::draw_pixel`: given the background pixel
index and the sprite pixel result `(index, priority, is-sprite-0)`, pick
the palette index and set `sprite0_hit` on a sprite-0/background
coincidence. -/
def Ppu.drawPixelChoose (p : Ppu) (backgroundIndex : Nat)
    (sp : Nat × SpritePriority × Bool) : Ppu × Nat :=
  if sp.1 &&& 0x3 ≠ 0 ∧ backgroundIndex &&& 0x3 ≠ 0 then
    let p2 := if sp.2.2 then { p with sprite0Hit := true } else p
    (p2, if sp.2.1 = SpritePriority.front then sp.1 else backgroundIndex)
  else if sp.1 ≠ 0 then
    (p, sp.1)
  else
    (p, backgroundIndex)

/-- `Ppu::draw_pixel`: computes the pixel (the colour lookup's palette
read is kept for its panic behaviour; the RGB lookup and
`renderer.draw_point` are output-only), setting `sprite0_hit` when
sprite 0 coincides with the background. -/
def Ppu.draw_pixel (p : Ppu) (cart : Cartridge) : Option Ppu := do
  let backgroundIndex := p.get_background_pixel
  let sp ← p.get_sprite_pixel cart
  let pr := p.drawPixelChoose backgroundIndex sp
  let _colorIndex ← pr.1.read_mem_ppu (0x3F00 + pr.2) cart
  some pr.1

/-- `Ppu::load_bg_tile`. -/
def Ppu.load_bg_tile (p : Ppu) (cart : Cartridge) : Option Ppu := do
  -- pattern
  let tileAddress := 0x2000 ||| (p.reg.v &&& 0x0FFF)
  let tile ← p.read_mem_ppu tileAddress cart
  let fineY := p.reg.v >>> 12
  let patternAddressLower := p.bgPatternTableAddr ||| (tile <<< 4) ||| fineY
  let patternAddressUpper := patternAddressLower + 8
  let bitmapRowLower ← p.read_mem_ppu patternAddressLower cart
  let bitmapRowUpper ← p.read_mem_ppu patternAddressUpper cart
  let reg1 := { p.reg with bgPatternLower := p.reg.bgPatternLower ||| bitmapRowLower,
                           bgPatternUpper := p.reg.bgPatternUpper ||| bitmapRowUpper }
  let p := { p with reg := reg1 }
  -- attribute
  let attributeAddress := 0x23C0 ||| (p.reg.v &&& 0x0C00) |||
    ((p.reg.v >>> 4) &&& 0x38) ||| ((p.reg.v >>> 2) &&& 0x07)
  let attrByte ← p.read_mem_ppu attributeAddress cart
  let attrX := p.reg.v &&& 0x0002 ≠ 0
  let attrY := p.reg.v &&& 0x0040 ≠ 0
  let paletteBits :=
    if ¬attrX ∧ ¬attrY then attrByte &&& 0x3
    else if attrX ∧ ¬attrY then (attrByte >>> 2) &&& 0x3
    else if ¬attrX ∧ attrY then (attrByte >>> 4) &&& 0x3
    else (attrByte >>> 6) &&& 0x3
  some { p with reg := { p.reg with bgAttributeLatch := paletteBits } }

/-- `Ppu::increment_v_vertical`. -/
def Ppu.increment_v_vertical (p : Ppu) : Ppu :=
  if p.reg.v &&& 0x7000 ≠ 0x7000 then
    { p with reg := { p.reg with v := p.reg.v + 0x1000 } }
  else
    let v := p.reg.v &&& (0xFFFF ^^^ 0x7000)
    let y := (v &&& 0x03E0) >>> 5
    let (y, v) :=
      if y = 29 then (0, v ^^^ 0x0800)
      else if y = 31 then (0, v)
      else (y + 1, v)
    { p with reg := { p.reg with v := (v &&& (0xFFFF ^^^ 0x03E0)) ||| (y <<< 5) } }

/-- `Ppu::increment_v_horizontal`. -/
def Ppu.increment_v_horizontal (p : Ppu) : Ppu :=
  if p.reg.v &&& 0x001F = 31 then
    { p with reg := { p.reg with v := (p.reg.v &&& (0xFFFF ^^^ 0x001F)) ^^^ 0x0400 } }
  else
    { p with reg := { p.reg with v := p.reg.v + 1 } }

/-- The `while` loop of `Ppu::prepare_sprites`, recursing on the remaining
OAM slots (`offset = 4 * (64 - fuel)`); returns the filled secondary OAM
and the `sprite0_enabled` flag. -/
def prepareSpritesLoop (scanLine : Int) (oam : Nat → Nat) :
    Nat → Nat → Nat → (Nat → Nat) → Bool → ((Nat → Nat) × Bool)
  | 0, _, _, sec, s0 => (sec, s0)
  | fuel + 1, offset, offset2, sec, s0 =>
    if offset < 256 ∧ offset2 < 32 then
      let y : Int := oam offset
      if scanLine ≥ y ∧ scanLine < y + 8 then
        let sec' := fun j => if offset2 ≤ j ∧ j < offset2 + 4 then oam (offset + (j - offset2)) else sec j
        let s0' := if offset = 0 then true else s0
        prepareSpritesLoop scanLine oam fuel (offset + 4) (offset2 + 4) sec' s0'
      else
        prepareSpritesLoop scanLine oam fuel (offset + 4) offset2 sec s0
    else
      (sec, s0)

/-- `Ppu::prepare_sprites`. -/
def Ppu.prepare_sprites (p : Ppu) : Ppu :=
  let p := { p with secondaryOam := fun _ => 0xFF }
  if p.scanLine = -1 then
    p
  else
    let r := prepareSpritesLoop p.scanLine p.oam 64 0 0 p.secondaryOam false
    { p with secondaryOam := r.1, sprite0Enabled := r.2 }

/-- The scroll-increment phase of a visible-scanline dot (the `if
cycle_count == 256 / == 257` block of `Ppu::step_cycle`). -/
def Ppu.stepDotScrollInc (p : Ppu) : Ppu :=
  if p.cycleCount = 256 then
    p.increment_v_vertical
  else if p.cycleCount = 257 then
    -- copy horizontal bits
    { p with reg := { p.reg with v := copy_bits p.reg.v p.reg.t 0x041F } }
  else p

/-- The background-fetch phase of a visible-scanline dot: every eighth
dot of the fetch ranges, load a background tile and increment coarse X. -/
def Ppu.stepDotFetch (p : Ppu) (cart : Cartridge) : Option Ppu :=
  if (p.cycleCount > 0 ∧ p.cycleCount ≤ 256) ∨
      (p.cycleCount = 328 ∨ p.cycleCount = 336) then
    if p.cycleCount % 8 = 0 then
      if (p.scanLine = -1 ∧ p.cycleCount ≥ 328) ∨
          (p.scanLine ≥ 0 ∧ p.scanLine < 240) then do
        let p ← p.load_bg_tile cart
        some p.increment_v_horizontal
      else some p
    else some p
  else some p

/-- The scroll-register part of a rendered dot: vertical-bit copy on the
pre-render scanline, otherwise (scanlines below 240) the increment phase
followed by the fetch phase. -/
def Ppu.stepDotScroll (p : Ppu) (cart : Cartridge) : Option Ppu :=
  if p.scanLine = -1 then
    if p.cycleCount ≥ 280 ∧ p.cycleCount ≤ 304 then
      -- copy vertical bits
      some { p with reg := { p.reg with v := copy_bits p.reg.v p.reg.t 0x7BE0 } }
    else some p
  else if p.scanLine < 240 then
    (p.stepDotScrollInc).stepDotFetch cart
  else some p

/-- The shift-register advance of a rendered dot (`cycle_count < 336`). -/
def Ppu.stepDotShift (p : Ppu) : Ppu :=
  if p.cycleCount < 336 then
    let bgPatternLower := (p.reg.bgPatternLower <<< 1) &&& 0xFFFF
    let bgPatternUpper := (p.reg.bgPatternUpper <<< 1) &&& 0xFFFF
    let bgAttributeLower := (p.reg.bgAttributeLower <<< 1) &&& 0xFF
    let bgAttributeLower :=
      if p.reg.bgAttributeLatch &&& 0x1 ≠ 0 then bgAttributeLower ||| 0x01 else bgAttributeLower
    let bgAttributeUpper := (p.reg.bgAttributeUpper <<< 1) &&& 0xFF
    let bgAttributeUpper :=
      if p.reg.bgAttributeLatch &&& 0x2 ≠ 0 then bgAttributeUpper ||| 0x01 else bgAttributeUpper
    { p with reg := { p.reg with bgPatternLower := bgPatternLower,
                                 bgPatternUpper := bgPatternUpper,
                                 bgAttributeLower := bgAttributeLower,
                                 bgAttributeUpper := bgAttributeUpper } }
  else p

/-- The OAM-address clear of a rendered dot (dots 257-320). -/
def Ppu.stepDotOamClear (p : Ppu) : Ppu :=
  if p.cycleCount ≥ 257 ∧ p.cycleCount ≤ 320 then { p with oamAddr := 0 } else p

/-- The rendering block of the `for` loop body of `Ppu::step_cycle` (run
only when background or sprite rendering is enabled): scroll phase, pixel
output, shift registers, OAM-address clear — in source order. -/
def Ppu.stepDotRender (p : Ppu) (cart : Cartridge) : Option Ppu := do
  let p ← p.stepDotScroll cart
  let p ←
    if p.scanLine ≥ 0 ∧ p.scanLine < 240 ∧ p.cycleCount < 256 then
      p.draw_pixel cart
    else
      some p
  some ((p.stepDotShift).stepDotOamClear)

/-- The dot/scanline advance at the bottom of the loop body of
`Ppu::step_cycle`: bump the dot counter, wrap at 341 (evaluating sprites
for the next scanline), set vblank at scanline 241 and start a new frame
past scanline 260. -/
def Ppu.stepDotAdvance (p : Ppu) : Ppu :=
  let p := { p with cycleCount := p.cycleCount + 1 }
  if p.cycleCount ≥ 341 then
    let p := { p with cycleCount := p.cycleCount - 341 }
    let p := if p.scanLine < 240 then p.prepare_sprites else p
    let p := { p with scanLine := p.scanLine + 1 }
    let p := if p.scanLine = 241 then { p with vblank := true } else p
    if p.scanLine ≥ 261 then
      { p with scanLine := -1, vblank := false, sprite0Hit := false }
    else p
  else p

/-- One iteration of the `for` loop in `Ppu::step_cycle` (one PPU dot). -/
def Ppu.stepDot (p : Ppu) (cart : Cartridge) : Option Ppu := do
  let p ←
    if p.backgroundEnabled ∨ p.spritesEnabled then
      p.stepDotRender cart
    else
      some p
  some p.stepDotAdvance

/-- The dot loop of `Ppu::step_cycle` (`count * 3` iterations). -/
def Ppu.stepDots (p : Ppu) (cart : Cartridge) : Nat → Option Ppu
  | 0 => some p
  | n + 1 => do
    let p' ← p.stepDot cart
    p'.stepDots cart n

/-- `Ppu::step_cycle`: advance `count` CPU cycles (3 dots each) and return
the NMI line level (`cart` is only read during stepping, never written). -/
def Ppu.step_cycle (p : Ppu) (count : Nat) (cart : Cartridge) : Option (Ppu × Bool) := do
  let p' ← p.stepDots cart (count * 3)
  some (p', ¬(p'.vblank ∧ p'.genNmiAtVblank))

/-- `Ppu::read_mem` (CPU-side register read, after the bus has mirrored
the address into `$2000-$2007`); `none` is the panic on an unimplemented
register. -/
def Ppu.read_mem (p : Ppu) (cart : Cartridge) (cpuAddress : Nat) : Option (Nat × Ppu) :=
  if cpuAddress = 0x2000 ∨ cpuAddress = 0x2001 ∨ cpuAddress = 0x2003 ∨
      cpuAddress = 0x2005 ∨ cpuAddress = 0x2006 then
    -- Write-only registers, return 0
    some (0, p)
  else if cpuAddress = 0x2002 then
    let value := (if p.vblank then 0x80 else 0x00) ||| (if p.sprite0Hit then 0x40 else 0x00)
    if p.memReadMutEnabled then
      some (value, { p with vblank := false, reg := { p.reg with w := false } })
    else
      some (value, p)
  else if cpuAddress = 0x2004 then
    if p.vblank then
      some (p.oam p.oamAddr, p)
    else
      some (0, p)
  else if cpuAddress = 0x2007 then
    if p.memReadMutEnabled then do
      let addr := p.reg.v
      let value ← p.read_mem_ppu addr cart
      -- `self.reg.v += self.vram_addr_increment` (u16, wrapping semantics)
      some (value, { p with reg := { p.reg with v := (p.reg.v + p.vramAddrIncrement) % 0x10000 } })
    else
      some (0, p)
  else
    none

/-- `Ppu::write_mem` (CPU-side register write); `none` models the
`unimplemented!()` for 16-pixel sprites and the unknown-register panic. -/
def Ppu.write_mem (p : Ppu) (cpuAddress value : Nat) (cart : Cartridge) :
    Option (Ppu × Cartridge) :=
  if cpuAddress = 0x2000 then
    let p := { p with vramAddrIncrement := if value &&& 0x04 = 0 then 1 else 32,
                      genNmiAtVblank := value &&& 0x80 ≠ 0,
                      reg := { p.reg with t := copy_bits p.reg.t (value <<< 10) 0x0C00 },
                      bgPatternTableAddr := if value &&& 0x10 ≠ 0 then 0x1000 else 0,
                      spritePatternTableAddr := if value &&& 0x08 ≠ 0 then 0x1000 else 0,
                      spriteHeight := if value &&& 0x20 ≠ 0 then 16 else 8 }
    if p.spriteHeight ≠ 8 then none else some (p, cart)
  else if cpuAddress = 0x2001 then
    some ({ p with backgroundLeftmostEnabled := value &&& 0x02 ≠ 0,
                   spritesLeftmostEnabled := value &&& 0x04 ≠ 0,
                   backgroundEnabled := value &&& 0x08 ≠ 0,
                   spritesEnabled := value &&& 0x10 ≠ 0 }, cart)
  else if cpuAddress = 0x2003 then
    some ({ p with oamAddr := value }, cart)
  else if cpuAddress = 0x2004 then
    if p.vblank then
      -- `self.oam_addr.wrapping_add(1);` computes a value that is
      -- immediately discarded: `oam_addr` is left unchanged
      some ({ p with oam := upd p.oam p.oamAddr value }, cart)
    else
      some (p, cart)
  else if cpuAddress = 0x2005 then
    let p :=
      if p.reg.w = false then
        { p with reg := { p.reg with t := copy_bits p.reg.t (value >>> 3) 0x001F,
                                     x := value &&& 0x7 } }
      else
        let t1 := copy_bits p.reg.t (value <<< 12) 0x7000
        { p with reg := { p.reg with t := copy_bits t1 (value <<< 2) 0x03E0 } }
    some ({ p with reg := { p.reg with w := !p.reg.w } }, cart)
  else if cpuAddress = 0x2006 then
    let p :=
      if p.reg.w = false then
        { p with reg := { p.reg with t := (copy_bits p.reg.t (value <<< 8) 0x3F00) &&& 0xBFFF } }
      else
        let t1 := copy_bits p.reg.t value 0x00FF
        { p with reg := { p.reg with t := t1, v := t1 } }
    some ({ p with reg := { p.reg with w := !p.reg.w } }, cart)
  else if cpuAddress = 0x2007 then do
    let addr := p.reg.v
    let (p, cart) ← p.write_mem_ppu addr value cart
    -- `self.reg.v += self.vram_addr_increment` (u16, wrapping semantics)
    some ({ p with reg := { p.reg with v := (p.reg.v + p.vramAddrIncrement) % 0x10000 } }, cart)
  else
    none

/-- `Ppu::perform_dma`: replace the whole OAM by the 256 RAM bytes at
`start_addr` and advance 513 CPU cycles.  The slice `&memory[start..start+256]`
is taken from the 2 KiB RAM vector, so it panics (`none`) unless
`start_addr + 256 ≤ 0x800`.  The second component records the CPU-cycle
count forwarded to `step_cycle` (the constant 513 in the source). -/
def Ppu.perform_dma (p : Ppu) (cart : Cartridge) (memory : Nat → Nat) (startAddr : Nat) :
    Option (Ppu × Nat) := do
  let endAddr := startAddr + 256
  if endAddr ≤ 0x800 then
    let p := { p with oam := fun i => memory (startAddr + i) }
    let (p', _nmiLine) ← p.step_cycle 513 cart
    some (p', 513)
  else
    none

/-! ## Machine / bus (src/nes/mod.rs) -/

/-- `Machine` state: PPU, controller, 2 KiB RAM, NMI-line latch and the
cartridge.  The SDL context is I/O-only; the `Option<Cartridge>` is always
`Some` once a ROM is loaded (every access unwraps it), so the cartridge is
modelled as always present. -/
structure Machine where
  ppu : Ppu
  controller : Controller
  ram : Nat → Nat
  nmiLine : Bool
  cartridge : Cartridge
deriving Inhabited

/-- `Machine::step_cycle`: advance the PPU, returning the new machine and
whether the NMI line saw a high→low edge. -/
def Machine.step_cycle (m : Machine) (count : Nat) : Option (Machine × Bool) := do
  let oldNmiLine := m.nmiLine
  let (ppu', nmiLine) ← m.ppu.step_cycle count m.cartridge
  some ({ m with ppu := ppu', nmiLine := nmiLine }, oldNmiLine ∧ ¬nmiLine)

/-- `Machine::read_mem`: RAM mirrored below `$2000`, PPU registers mirrored
in `$2000-$3FFF`, `$FF` for the APU range and `$4018-$7FFF`, controller at
`$4016-$4017`, cartridge at `$8000` and above. -/
def Machine.read_mem (m : Machine) (address : Nat) : Option (Nat × Machine) :=
  if address < 0x2000 then
    some (m.ram (address &&& 0x7FF), m)
  else if address < 0x4000 then do
    let regAddress := 0x2000 + ((address - 0x2000) &&& 0x7)
    let (v, ppu') ← m.ppu.read_mem m.cartridge regAddress
    some (v, { m with ppu := ppu' })
  else if address < 0x4016 then
    some (0xFF, m)
  else if address < 0x4018 then do
    let (v, c') ← m.controller.read_mem address
    some (v, { m with controller := c' })
  else if address < 0x8000 then
    some (0xFF, m)
  else do
    let v ← m.cartridge.read_mem_cpu address
    some (v, m)

/-- `Machine::write_mem`: RAM, PPU registers, OAM DMA at `$4014`,
controller strobe at `$4016`, cartridge at `$8000` and above; writes to
`$4000-$4013`, `$4015` and `$4017-$7FFF` are dropped. -/
def Machine.write_mem (m : Machine) (address value : Nat) : Option Machine :=
  if address < 0x2000 then
    some { m with ram := upd m.ram (address &&& 0x7FF) value }
  else if address < 0x4000 then do
    let regAddress := 0x2000 + ((address - 0x2000) &&& 0x7)
    let (ppu', cart') ← m.ppu.write_mem regAddress value m.cartridge
    some { m with ppu := ppu', cartridge := cart' }
  else if address < 0x4014 then
    some m
  else if address = 0x4014 then do
    let (ppu', _cycles) ← m.ppu.perform_dma m.cartridge m.ram (value * 0x100)
    some { m with ppu := ppu' }
  else if address = 0x4015 then
    some m
  else if address = 0x4016 then do
    let c' ← m.controller.write_mem address value
    some { m with controller := c' }
  else if address < 0x8000 then
    some m
  else do
    let cart' ← m.cartridge.write_mem_cpu address value
    some { m with cartridge := cart' }

/-! ## CPU registers, stack and reset (src/nes/cpu.rs) -/

/-- The CPU register file (`Registers` in src/nes/cpu.rs). -/
structure CpuRegisters where
  pc : Nat
  sp : Nat
  a : Nat
  x : Nat
  y : Nat
  status : Nat
deriving Inhabited

/-- `Cpu` state (the static instruction table lives in
`Cpu.add_instructions` above). -/
structure Cpu where
  reg : CpuRegisters
  nmiTriggered : Bool
deriving Inhabited

/-- `Cpu::new`. -/
def Cpu.new : Cpu :=
  { reg := { pc := 0, sp := 0xfd, a := 0, x := 0, y := 0, status := 0x24 },
    nmiTriggered := false }

/-- `Cpu::push`: write at `$0100 + SP`, then `self.reg.sp -= 1` (u8,
wrapping semantics). -/
def Cpu.push (cpu : Cpu) (m : Machine) (value : Nat) : Option (Cpu × Machine) := do
  let address := 0x100 + cpu.reg.sp
  let m' ← m.write_mem address value
  some ({ cpu with reg := { cpu.reg with sp := (cpu.reg.sp + 255) % 256 } }, m')

/-- `Cpu::pop`: `self.reg.sp += 1` (u8, wrapping semantics), then read at
`$0100 + SP`. -/
def Cpu.pop (cpu : Cpu) (m : Machine) : Option (Nat × Cpu × Machine) := do
  let sp1 := (cpu.reg.sp + 1) % 256
  let cpu := { cpu with reg := { cpu.reg with sp := sp1 } }
  let (v, m') ← m.read_mem (0x100 + cpu.reg.sp)
  some (v, cpu, m')

/-- `Cpu::perform_interrupt`: optionally push PCH, PCL and the status, then
load PC from the two vector bytes (high byte read first, as in the
source). -/
def Cpu.perform_interrupt (cpu : Cpu) (m : Machine) (pclAddr pchAddr : Nat)
    (writeToStack : Bool) : Option (Cpu × Machine) := do
  let (cpu, m) ←
    if writeToStack then do
      let pch := cpu.reg.pc >>> 8
      let pcl := cpu.reg.pc &&& 0xff
      let (cpu, m) ← cpu.push m pch
      let (cpu, m) ← cpu.push m pcl
      let status := cpu.reg.status
      cpu.push m status
    else
      some (cpu, m)
  let (pch, m) ← m.read_mem pchAddr
  let (pcl, m) ← m.read_mem pclAddr
  some ({ cpu with reg := { cpu.reg with pc := (pch <<< 8) + pcl } }, m)

/-- `Cpu::reset`: a no-stack `perform_interrupt` with vector addresses
`$0FFC/$0FFD` (sic), then PC is loaded from `$FFFC/$FFFD` (high byte from
`$FFFD` read first). -/
def Cpu.reset (cpu : Cpu) (m : Machine) : Option (Cpu × Machine) := do
  let (cpu, m) ← cpu.perform_interrupt m 0xffc 0xffd false
  let (hi, m) ← m.read_mem 0xfffd
  let (lo, m) ← m.read_mem 0xfffc
  some ({ cpu with reg := { cpu.reg with pc := (hi <<< 8) + lo } }, m)

/-! ## APU (src/nes/apu.rs) -/

/-- The APU frame-counter sequence mode. -/
inductive FrameCounterSequence where
  | fourStep
  | fiveStep
deriving DecidableEq, Inhabited

/-- `Envelope` state. -/
structure Envelope where
  volume : Nat
  loopFlag : Bool
  constantVolumeFlag : Bool
  startFlag : Bool
  decayLevel : Nat
  divider : Nat
deriving Inhabited

/-- `Envelope::new`. -/
def Envelope.new : Envelope :=
  { volume := 0, constantVolumeFlag := false, loopFlag := false,
    startFlag := false, decayLevel := 0, divider := 0 }

/-- `Envelope::step_clock`. -/
def Envelope.step_clock (e : Envelope) : Envelope :=
  if e.startFlag then
    { e with startFlag := false, decayLevel := 15, divider := e.volume }
  else
    if e.divider > 0 then
      { e with divider := e.divider - 1 }
    else
      let e := { e with divider := e.volume }
      if e.decayLevel > 0 then
        { e with decayLevel := e.decayLevel - 1 }
      else
        if e.loopFlag then { e with decayLevel := 15 } else e

/-- `Envelope::get_output_level`. -/
def Envelope.get_output_level (e : Envelope) : Nat :=
  if e.constantVolumeFlag then e.volume else e.decayLevel

/-- `LengthCounter` state. -/
structure LengthCounter where
  counter : Nat
  enabled : Bool
  halt : Bool
deriving Inhabited

/-- `LengthCounter::LENGTH_TABLE`. -/
def LengthCounter.lengthTable : List Nat :=
  [10, 254, 20, 2, 40, 4, 80, 6, 160, 8, 60, 10, 14, 12, 26, 14,
   12, 16, 24, 18, 48, 20, 96, 22, 192, 24, 72, 26, 16, 28, 32, 30]

/-- `LengthCounter::new`. -/
def LengthCounter.new : LengthCounter :=
  { counter := 0, enabled := false, halt := false }

/-- `LengthCounter::step_clock`. -/
def LengthCounter.step_clock (l : LengthCounter) : LengthCounter :=
  if l.counter > 0 ∧ ¬l.halt then { l with counter := l.counter - 1 } else l

/-- `LengthCounter::set_enabled`. -/
def LengthCounter.set_enabled (l : LengthCounter) (enabled : Bool) : LengthCounter :=
  let l := { l with enabled := enabled }
  if ¬l.enabled then { l with counter := 0 } else l

/-- `LengthCounter::load`; every call site passes `value >> 3` of a byte,
so the table index is below 32 and the lookup cannot panic. -/
def LengthCounter.load (l : LengthCounter) (value : Nat) : LengthCounter :=
  if l.enabled then { l with counter := LengthCounter.lengthTable.getD value 0 } else l

/-- `LengthCounter::is_zero`. -/
def LengthCounter.is_zero (l : LengthCounter) : Bool :=
  l.counter = 0

/-- `Sweep` state. -/
structure Sweep where
  enabled : Bool
  timerMax : Nat
  timer : Nat
  negate : Bool
  shiftCount : Nat
  reloadFlag : Bool
  muted : Bool
  extraMinusOne : Bool
deriving Inhabited

/-- `Sweep::new`. -/
def Sweep.new (extraMinusOne : Bool) : Sweep :=
  { enabled := false, timerMax := 0, timer := 0, negate := false,
    shiftCount := 0, reloadFlag := false, muted := false,
    extraMinusOne := extraMinusOne }

/-- `Sweep::step_clock`, taking and returning the channel period
(`&mut period` in the source).  `(*period as i16) >> shift` is an
arithmetic shift of the reinterpreted value, and the `as u16` cast of the
target period wraps. -/
def Sweep.step_clock (s : Sweep) (period : Nat) : Sweep × Nat :=
  let targetPeriod :=
    if s.shiftCount = 0 then
      period
    else
      let changeAmount : Int := Int.fdiv (i16OfU16 period) (2 ^ s.shiftCount)
      let changeAmount :=
        if s.negate then
          let c := -changeAmount
          if s.extraMinusOne then c - 1 else c
        else changeAmount
      u16OfInt (i16OfU16 period + changeAmount)
  let muted := targetPeriod > 0x7FF ∨ period < 8
  let period := if s.timer = 0 ∧ s.enabled ∧ ¬muted then targetPeriod else period
  let s := { s with muted := muted }
  if s.timer = 0 ∨ s.reloadFlag then
    ({ s with timer := s.timerMax, reloadFlag := false }, period)
  else
    ({ s with timer := s.timer - 1 }, period)

/-- `Sweep::is_muted`. -/
def Sweep.is_muted (s : Sweep) : Bool :=
  s.muted

/-- `Sweep::setup`. -/
def Sweep.setup (s : Sweep) (value : Nat) : Sweep :=
  { s with enabled := value &&& 0b10000000 ≠ 0,
           timerMax := (value &&& 0b01110000) >>> 4,
           negate := value &&& 0b00001000 ≠ 0,
           shiftCount := value &&& 0b00000111,
           reloadFlag := true }

/-- `PulseChannel` state. -/
structure PulseChannel where
  dutyCycle : Nat
  timerMax : Nat
  timer : Nat
  sequenceIndex : Nat
  envelope : Envelope
  lengthCounter : LengthCounter
  sweep : Sweep
  outputLevel : Nat
deriving Inhabited

/-- `PulseChannel::WAVEFORMS`. -/
def PulseChannel.waveforms : List (List Nat) :=
  [[0, 1, 0, 0, 0, 0, 0, 0],
   [0, 1, 1, 0, 0, 0, 0, 0],
   [0, 1, 1, 1, 1, 0, 0, 0],
   [1, 0, 0, 1, 1, 1, 1, 1]]

/-- `PulseChannel::new`. -/
def PulseChannel.new (extraMinusOne : Bool) : PulseChannel :=
  { dutyCycle := 0, timerMax := 0, timer := 0, sequenceIndex := 0,
    envelope := Envelope.new, lengthCounter := LengthCounter.new,
    sweep := Sweep.new extraMinusOne, outputLevel := 0 }

/-- `PulseChannel::update_level`; `none` models the panic of
`WAVEFORMS[duty_cycle]` when `duty_cycle > 3` (never produced by
`set_control1`, but representable in the raw state). -/
def PulseChannel.update_level (p : PulseChannel) : Option PulseChannel := do
  let p ←
    if p.timer = 0 then do
      let p := { p with timer := p.timerMax }
      let si := p.sequenceIndex + 1
      let si := if si > 7 then 0 else si
      let wf ← PulseChannel.waveforms.get? p.dutyCycle
      let bit ← wf.get? si
      let p := { p with sequenceIndex := si,
                        outputLevel := bit * p.envelope.get_output_level }
      some (if p.timerMax < 8 then { p with outputLevel := 0 } else p)
    else
      some { p with timer := p.timer - 1 }
  if p.lengthCounter.is_zero ∨ p.sweep.is_muted then
    some { p with outputLevel := 0 }
  else
    some p

/-- `PulseChannel::set_control1`. -/
def PulseChannel.set_control1 (p : PulseChannel) (value : Nat) : PulseChannel :=
  let loopAndHaltFlag := value &&& 0x20 ≠ 0
  { p with dutyCycle := value >>> 6,
           envelope := { p.envelope with loopFlag := loopAndHaltFlag,
                                         constantVolumeFlag := value &&& 0x10 ≠ 0,
                                         volume := value &&& 0x0F },
           lengthCounter := { p.lengthCounter with halt := loopAndHaltFlag } }

/-- `PulseChannel::set_timer_max_low`. -/
def PulseChannel.set_timer_max_low (p : PulseChannel) (value : Nat) : PulseChannel :=
  { p with timerMax := (p.timerMax &&& 0xFF00) ||| value }

/-- `PulseChannel::set_timer_max_high`. -/
def PulseChannel.set_timer_max_high (p : PulseChannel) (value : Nat) : PulseChannel :=
  { p with timerMax := (p.timerMax &&& 0x00FF) ||| ((value &&& 0x07) <<< 8),
           lengthCounter := p.lengthCounter.load (value >>> 3),
           envelope := { p.envelope with startFlag := true } }

/-- `PulseChannel::set_enabled`. -/
def PulseChannel.set_enabled (p : PulseChannel) (enabled : Bool) : PulseChannel :=
  { p with lengthCounter := p.lengthCounter.set_enabled enabled }

/-- `PulseChannel::setup_sweep`. -/
def PulseChannel.setup_sweep (p : PulseChannel) (value : Nat) : PulseChannel :=
  { p with sweep := p.sweep.setup value }

/-- `PulseChannel::step_sweep_clock` (`sweep.step_clock(&mut timer_max)`). -/
def PulseChannel.step_sweep_clock (p : PulseChannel) : PulseChannel :=
  let r := p.sweep.step_clock p.timerMax
  { p with sweep := r.1, timerMax := r.2 }

/-- `LinearCounter` state. -/
structure LinearCounter where
  counter : Nat
  reloadValue : Nat
  reloadFlag : Bool
  controlFlag : Bool
deriving Inhabited

/-- `LinearCounter::new`. -/
def LinearCounter.new : LinearCounter :=
  { counter := 0, reloadValue := 0, reloadFlag := false, controlFlag := false }

/-- `LinearCounter::step_clock`. -/
def LinearCounter.step_clock (l : LinearCounter) : LinearCounter :=
  let l :=
    if l.reloadFlag then { l with counter := l.reloadValue }
    else if l.counter > 0 then { l with counter := l.counter - 1 }
    else l
  if ¬l.controlFlag then { l with reloadFlag := false } else l

/-- `LinearCounter::setup`. -/
def LinearCounter.setup (l : LinearCounter) (value : Nat) : LinearCounter :=
  { l with controlFlag := value &&& 0x80 ≠ 0, reloadValue := value &&& 0x7F }

/-- `LinearCounter::is_zero`. -/
def LinearCounter.is_zero (l : LinearCounter) : Bool :=
  l.counter = 0

/-- `TriangleChannel` state. -/
structure TriangleChannel where
  timerMax : Nat
  timer : Nat
  sequenceIndex : Nat
  lengthCounter : LengthCounter
  linearCounter : LinearCounter
  outputLevel : Nat
deriving Inhabited

/-- `TriangleChannel::WAVEFORM`. -/
def TriangleChannel.waveform : List Nat :=
  [15, 14, 13, 12, 11, 10, 9, 8, 7, 6, 5, 4, 3, 2, 1, 0,
   0, 1, 2, 3, 4, 5, 6, 7, 8, 9, 10, 11, 12, 13, 14, 15]

/-- `TriangleChannel::new`. -/
def TriangleChannel.new : TriangleChannel :=
  { timerMax := 0, timer := 0, sequenceIndex := 0,
    lengthCounter := LengthCounter.new, linearCounter := LinearCounter.new,
    outputLevel := 0 }

/-- `TriangleChannel::update_level`; the sequence index is wrapped to
`0..31` before the table access, so the lookup cannot panic (`getD`). -/
def TriangleChannel.update_level (t : TriangleChannel) : TriangleChannel :=
  let t :=
    if t.timer = 0 then
      let t := { t with timer := t.timerMax }
      let si := t.sequenceIndex + 1
      let si := if si > 31 then 0 else si
      { t with sequenceIndex := si,
               outputLevel := TriangleChannel.waveform.getD si 0 }
    else
      { t with timer := t.timer - 1 }
  if t.lengthCounter.is_zero ∨ t.linearCounter.is_zero then
    { t with outputLevel := 0 }
  else
    t

/-- `TriangleChannel::set_halt_and_linear_counter_load`. -/
def TriangleChannel.set_halt_and_linear_counter_load (t : TriangleChannel) (value : Nat) :
    TriangleChannel :=
  let controlAndHaltFlag := value &&& 0x80 ≠ 0
  { t with lengthCounter := { t.lengthCounter with halt := controlAndHaltFlag },
           linearCounter := t.linearCounter.setup value }

/-- `TriangleChannel::set_timer_max_low`. -/
def TriangleChannel.set_timer_max_low (t : TriangleChannel) (value : Nat) : TriangleChannel :=
  { t with timerMax := (t.timerMax &&& 0xFF00) ||| value }

/-- `TriangleChannel::set_length_counter_load_and_timer_max_high`. -/
def TriangleChannel.set_length_counter_load_and_timer_max_high (t : TriangleChannel)
    (value : Nat) : TriangleChannel :=
  { t with timerMax := (t.timerMax &&& 0x00FF) ||| ((value &&& 0x7) <<< 8),
           lengthCounter := t.lengthCounter.load (value >>> 3),
           linearCounter := { t.linearCounter with reloadFlag := true } }

/-- `TriangleChannel::set_enabled`. -/
def TriangleChannel.set_enabled (t : TriangleChannel) (enabled : Bool) : TriangleChannel :=
  { t with lengthCounter := t.lengthCounter.set_enabled enabled }

/-- `Apu` state.  The `OutputSampleGenerator` and `audio_level` are the
floating-point mixer/output path: they are written from the integer state
but never read back into it, and are omitted. -/
structure Apu where
  frameCounterSequence : FrameCounterSequence
  interruptInhibitFlag : Bool
  cycleCount : Nat
  pulse1 : PulseChannel
  pulse2 : PulseChannel
  triangle : TriangleChannel
deriving Inhabited

/-- `Apu::new` (modelled fields). -/
def Apu.new : Apu :=
  { frameCounterSequence := .fourStep, interruptInhibitFlag := false,
    cycleCount := 0, pulse1 := PulseChannel.new true,
    pulse2 := PulseChannel.new false, triangle := TriangleChannel.new }

/-- `Apu::step_quarter_frame_clock`. -/
def Apu.step_quarter_frame_clock (a : Apu) : Apu :=
  { a with pulse1 := { a.pulse1 with envelope := a.pulse1.envelope.step_clock },
           pulse2 := { a.pulse2 with envelope := a.pulse2.envelope.step_clock },
           triangle := { a.triangle with linearCounter := a.triangle.linearCounter.step_clock } }

/-- `Apu::step_half_frame_clock`. -/
def Apu.step_half_frame_clock (a : Apu) : Apu :=
  let p1 := { a.pulse1 with lengthCounter := a.pulse1.lengthCounter.step_clock }
  let p1 := p1.step_sweep_clock
  let p2 := { a.pulse2 with lengthCounter := a.pulse2.lengthCounter.step_clock }
  let p2 := p2.step_sweep_clock
  { a with pulse1 := p1, pulse2 := p2,
           triangle := { a.triangle with lengthCounter := a.triangle.lengthCounter.step_clock } }

/-- The channel-update phase at the top of the `for` loop body of
`Apu::step_cycle`: the triangle level every cycle, the pulse levels (and
the omitted floating-point `update_audio_level`/`maybe_generate` output
path) every second cycle. -/
def Apu.stepChannels (a : Apu) : Option Apu := do
  let a := { a with triangle := a.triangle.update_level }
  if a.cycleCount % 2 = 0 then do
    let p1 ← a.pulse1.update_level
    let p2 ← a.pulse2.update_level
    some { a with pulse1 := p1, pulse2 := p2 }
  else
    some a

/-- The frame-counter phase of the loop body of `Apu::step_cycle`:
increment and wrap the cycle counter, fire the quarter/half-frame clocks,
and (in four-step mode) assert `irq_triggered`. -/
def Apu.stepFrameCounter (a : Apu) (irq : Bool) : Apu × Bool :=
  let a := { a with cycleCount := a.cycleCount + 1 }
  let cycleWrapAround :=
    match a.frameCounterSequence with
    | .fourStep => 14915 * 2
    | .fiveStep => 18641 * 2
  let a := if a.cycleCount ≥ cycleWrapAround then { a with cycleCount := 0 } else a
  match a.frameCounterSequence with
  | .fourStep =>
    let a :=
      if a.cycleCount = 7456 * 2 + 1 ∨ a.cycleCount = 14914 * 2 + 1 then
        a.step_quarter_frame_clock.step_half_frame_clock
      else if a.cycleCount = 3728 * 2 + 1 ∨ a.cycleCount = 11185 * 2 + 1 then
        a.step_quarter_frame_clock
      else a
    let irq :=
      if (a.cycleCount = 0 ∨ a.cycleCount ≥ 14914 * 2) ∧ ¬a.interruptInhibitFlag then
        true
      else irq
    (a, irq)
  | .fiveStep =>
    let a :=
      if a.cycleCount = 7456 * 2 + 1 ∨ a.cycleCount = 18640 * 2 + 1 then
        a.step_quarter_frame_clock.step_half_frame_clock
      else if a.cycleCount = 3728 * 2 + 1 ∨ a.cycleCount = 11185 * 2 + 1 then
        a.step_quarter_frame_clock
      else a
    (a, irq)

/-- One iteration of the `for` loop in `Apu::step_cycle` (one CPU cycle);
`irq` is the accumulated `irq_triggered` flag. -/
def Apu.stepOneCycle (a : Apu) (irq : Bool) : Option (Apu × Bool) := do
  let a ← a.stepChannels
  some (a.stepFrameCounter irq)

/-- `Apu::step_cycle`: `count` iterations of `stepOneCycle`, accumulating
`irq_triggered` (initially false). -/
def Apu.step_cycle (a : Apu) (count : Nat) : Option (Apu × Bool) :=
  match count with
  | 0 => some (a, false)
  | n + 1 => do
    let (a, irq) ← a.step_cycle n
    a.stepOneCycle irq

/-! ## Concrete fixtures used by witnesses and counterexamples -/

/-- Masking with `0x7FF` is the identity below `0x800` (RAM indexing). -/
theorem and_7FF_of_lt {a : Nat} (h : a < 0x800) : a &&& 0x7FF = a := by
  have := Nat.and_pow_two_sub_one_eq_mod a 11
  norm_num at this
  omega

/-- A concrete 32 KiB NROM cartridge; its reset vector `$FFFC/$FFFD`
holds `$34/$12`. -/
def cart0 : Cartridge :=
  { rom := { prgRom := fun i => if i = 0x7FFC then 0x34 else if i = 0x7FFD then 0x12 else 0,
             prgRomLen := 0x8000,
             chrRom := fun _ => 0, chrRomLen := 0x2000,
             mirroring := .vertical },
    mapper := .nrom }

/-- A concrete machine: power-on PPU, zeroed RAM, `cart0`. -/
def machine0 : Machine :=
  { ppu := Ppu.new, controller := Controller.new, ram := fun _ => 0,
    nmiLine := true, cartridge := cart0 }

/-! ## C1 -/

/-- Claim C1, counterexample: opcode `$00` (BRK) is one of the 151
official opcodes, yet `Cpu::execute_instruction` does not dispatch it —
the table built by `Cpu::add_instructions` has no `$00` entry, so the
lookup's `.unwrap()` aborts.  (The same holds for `$58`, CLI.) -/
theorem c1_brk_not_dispatched :
    0x00 ∈ officialOpcodes ∧ Cpu.dispatches 0x00 = false ∧
    0x58 ∈ officialOpcodes ∧ Cpu.dispatches 0x58 = false := by
  refine ⟨by decide, by decide, by decide, by decide⟩

/-- Claim C1, amended: every official opcode except BRK (`$00`) and CLI
(`$58`) is in the table and has a handler arm in
`Cpu::execute_instruction`, so dispatch completes without reaching the
fatal unknown-opcode abort; `$00` and `$58` are absent and abort. -/
theorem c1_official_opcodes_dispatch :
    officialOpcodes.all
      (fun op => op == 0x00 || op == 0x58 || Cpu.dispatches op) = true := by
  decide

/-! ## C8 -/

/-- Claim C8, amended (theorem): with the strobe low, a `$4016` read
returns the key state at the current index (LSB/A-button first from index
0) and advances the index; but once all eight keys have been shifted out
(`key_index ≥ 8`) the next read indexes past the 8-entry `key_state`
array and aborts, instead of returning a stream of 1s. -/
theorem c8_shift_out (c : Controller) (h : c.strobe = false) :
    (c.keyIndex < 8 →
      c.read_mem 0x4016 =
        some ((if c.keyState c.keyIndex then 1 else 0),
              { c with keyIndex := c.keyIndex + 1 })) ∧
    (8 ≤ c.keyIndex → c.read_mem 0x4016 = none) := by
  constructor
  · intro hlt
    simp [Controller.read_mem, h, hlt]
  · intro hge
    simp [Controller.read_mem, h, Nat.not_lt.mpr hge]

/-- Claim C8, witness: a concrete controller with only the B key held
(index 1), strobe low, index 1: the read returns 1 and advances to 2;
after eight keys a controller at index 8 aborts. -/
theorem c8_shift_out_witness :
    ({ keyState := fun i => i = 1, strobe := false, keyIndex := 1 : Controller}.read_mem 0x4016 =
      some (1, { keyState := fun i => i = 1, strobe := false, keyIndex := 2 : Controller})) ∧
    ({ keyState := fun i => i = 1, strobe := false, keyIndex := 8 : Controller}.read_mem 0x4016 = none) := by
  refine ⟨?_, ?_⟩
  · have h := (c8_shift_out { keyState := fun i => i = 1, strobe := false, keyIndex := 1 } rfl).1
      (by decide)
    simpa using h
  · exact (c8_shift_out { keyState := fun i => i = 1, strobe := false, keyIndex := 8 } rfl).2
      (by decide)

/-- Claim C8, counterexample: from the reset controller with strobe low,
eight `$4016` reads succeed but the ninth panics (`none` / `isNone`) —
it does not return 1 as the claim states. -/
theorem c8_ninth_read_aborts :
    (Controller.new.readSeq 8).isSome = true ∧ (Controller.new.readSeq 9).isNone = true := by
  exact ⟨by decide, by decide⟩

/-! ## C9 -/

/-- Claim C9, amended (theorem): `Cpu::push` writes the value at
`$0100 + SP` with the OLD stack pointer and only then decrements SP
(post-decrement, wrapping mod 256); `Cpu::pop` first increments SP and
then reads `$0100 + SP` (pre-increment).  The claim's pre-decrement
description of push does not match. -/
theorem c9_stack_discipline (cpu : Cpu) (m : Machine) (v : Nat)
    (hsp : cpu.reg.sp < 256) :
    cpu.push m v =
      some ({ cpu with reg := { cpu.reg with sp := (cpu.reg.sp + 255) % 256 } },
            { m with ram := upd m.ram (0x100 + cpu.reg.sp) v }) ∧
    cpu.pop m =
      some (m.ram (0x100 + (cpu.reg.sp + 1) % 256),
            { cpu with reg := { cpu.reg with sp := (cpu.reg.sp + 1) % 256 } }, m) := by
  have h1 : 0x100 + cpu.reg.sp < 0x2000 := by omega
  have h2 : (0x100 + cpu.reg.sp) &&& 0x7FF = 0x100 + cpu.reg.sp :=
    and_7FF_of_lt (by omega)
  have h3 : 0x100 + (cpu.reg.sp + 1) % 256 < 0x2000 := by
    have := Nat.mod_lt (cpu.reg.sp + 1) (y := 256) (by omega)
    omega
  have h4 : (0x100 + (cpu.reg.sp + 1) % 256) &&& 0x7FF = 0x100 + (cpu.reg.sp + 1) % 256 := by
    have := Nat.mod_lt (cpu.reg.sp + 1) (y := 256) (by omega)
    exact and_7FF_of_lt (by omega)
  constructor
  · simp [Cpu.push, Machine.write_mem, h1, h2]
  · simp [Cpu.pop, Machine.read_mem, h3, h4]

/-- Claim C9, witness: pushing `$42` with SP = `$FD` stores it at `$01FD`
and leaves SP = `$FC`; popping with SP = `$FD` reads `$01FE`. -/
theorem c9_stack_discipline_witness :
    Cpu.new.push machine0 0x42 =
      some ({ Cpu.new with reg := { Cpu.new.reg with sp := 0xFC } },
            { machine0 with ram := upd machine0.ram 0x1FD 0x42 }) ∧
    Cpu.new.pop machine0 =
      some (machine0.ram 0x1FE,
            { Cpu.new with reg := { Cpu.new.reg with sp := 0xFE } }, machine0) := by
  have h := c9_stack_discipline Cpu.new machine0 0x42 (by decide)
  constructor
  · have h1 := h.1
    norm_num [Cpu.new] at h1 ⊢
    exact h1
  · have h2 := h.2
    norm_num [Cpu.new] at h2 ⊢
    exact h2

/-- Claim C9, counterexample: with SP = `$FD`, pushing `$42` writes RAM
address `$01FD` (= `$0100` + old SP) and leaves `$01FC` (= `$0100` +
pre-decremented SP) untouched — so the pushed byte is NOT written "with
the stack pointer pre-decremented" as the claim states. -/
theorem c9_push_not_predecrement :
    (Cpu.new.push machine0 0x42).map
      (fun r => (r.2.ram 0x1FD, r.2.ram 0x1FC, r.1.reg.sp)) =
      some (0x42, 0, 0xFC) ∧ (0x42 : Nat) ≠ 0 := by
  exact ⟨by decide, by decide⟩

/-! ## C10 -/

/-- Reads in `$3F00-$3FFF` land in palette RAM at `paletteIndexOf`. -/
theorem read_mem_ppu_palette (p : Ppu) (cart : Cartridge) (a : Nat)
    (h1 : ¬ a < 0x3F00) (h2 : a < 0x4000) :
    p.read_mem_ppu a cart = some (p.paletteRam (Ppu.paletteIndexOf a)) := by
  simp [Ppu.read_mem_ppu, h1, h2]

/-- Writes in `$3F00-$3FFF` land in palette RAM at `paletteIndexOf`. -/
theorem write_mem_ppu_palette (p : Ppu) (cart : Cartridge) (a v : Nat)
    (h1 : ¬ a < 0x3F00) (h2 : a < 0x4000) :
    p.write_mem_ppu a v cart =
      some ({ p with paletteRam := upd p.paletteRam (Ppu.paletteIndexOf a) v }, cart) := by
  simp [Ppu.write_mem_ppu, h1, h2]

/-- Reading back the updated cell of `upd` yields the written value. -/
theorem upd_same (f : Nat → Nat) (i v : Nat) : upd f i v i = v := by
  simp [upd]

/-- Claim C10 (confirmed): for each mirrored palette address
`A ∈ {$3F10, $3F14, $3F18, $3F1C}`, PPU-side reads and writes at `A` are
identical to those at `A - $10` (bit 4 cleared): reads return the same
byte, writes produce identical PPU states, and a write at `A` followed by
a read at `A - $10` returns the written value. -/
theorem c10_palette_mirror (p : Ppu) (cart : Cartridge) (a v : Nat)
    (ha : a = 0x3F10 ∨ a = 0x3F14 ∨ a = 0x3F18 ∨ a = 0x3F1C) :
    p.read_mem_ppu a cart = p.read_mem_ppu (a - 0x10) cart ∧
    p.write_mem_ppu a v cart = p.write_mem_ppu (a - 0x10) v cart ∧
    (p.write_mem_ppu a v cart).map (fun r => r.1.read_mem_ppu (a - 0x10) r.2) =
      some (some v) := by
  have same : Ppu.paletteIndexOf a = Ppu.paletteIndexOf (a - 0x10) := by
    rcases ha with h | h | h | h <;> subst h <;> rfl
  have hr1 : ¬ a < 0x3F00 := by rcases ha with h | h | h | h <;> omega
  have hr2 : a < 0x4000 := by rcases ha with h | h | h | h <;> omega
  have hr3 : ¬ a - 0x10 < 0x3F00 := by rcases ha with h | h | h | h <;> omega
  have hr4 : a - 0x10 < 0x4000 := by rcases ha with h | h | h | h <;> omega
  refine ⟨?_, ?_, ?_⟩
  · rw [read_mem_ppu_palette p cart a hr1 hr2,
        read_mem_ppu_palette p cart (a - 0x10) hr3 hr4, same]
  · rw [write_mem_ppu_palette p cart a v hr1 hr2,
        write_mem_ppu_palette p cart (a - 0x10) v hr3 hr4, same]
  · rw [write_mem_ppu_palette p cart a v hr1 hr2]
    simp only [Option.map_some']
    rw [read_mem_ppu_palette _ cart (a - 0x10) hr3 hr4, ← same]
    simp [upd_same]

/-! ## C5 -/

/-- A power-on PPU in vertical blank with OAM address 5. -/
def ppuOamVblank : Ppu := { Ppu.new with vblank := true, oamAddr := 5 }

/-- A power-on PPU outside vertical blank with OAM address 5. -/
def ppuOamNoVblank : Ppu := { Ppu.new with vblank := false, oamAddr := 5 }

/-- Claim C5, amended (theorem): a `$2004` write stores the value at the
current OAM address ONLY while the PPU is in vertical blank, and even
then leaves the OAM address unchanged (the source computes
`oam_addr.wrapping_add(1)` but discards the result); outside vertical
blank the write is ignored entirely. -/
theorem c5_oam_write (p : Ppu) (cart : Cartridge) (v : Nat) :
    (p.vblank = true →
      p.write_mem 0x2004 v cart = some ({ p with oam := upd p.oam p.oamAddr v }, cart)) ∧
    (p.vblank = false →
      p.write_mem 0x2004 v cart = some (p, cart)) := by
  constructor
  · intro h
    simp [Ppu.write_mem, h]
  · intro h
    simp [Ppu.write_mem, h]

/-- Claim C5, witness: writing `$42` at OAM address 5 during vblank
stores it; outside vblank nothing changes. -/
theorem c5_oam_write_witness :
    Ppu.write_mem ppuOamVblank 0x2004 0x42 cart0 =
      some ({ ppuOamVblank with oam := upd ppuOamVblank.oam 5 0x42 }, cart0) ∧
    Ppu.write_mem ppuOamNoVblank 0x2004 0x42 cart0 = some (ppuOamNoVblank, cart0) := by
  exact ⟨(c5_oam_write ppuOamVblank cart0 0x42).1 rfl,
         (c5_oam_write ppuOamNoVblank cart0 0x42).2 rfl⟩

/-- Claim C5, counterexample: during vblank the write stores the byte but
the OAM address stays 5 (the claim requires 6); outside vblank the byte
is not stored at all (the claim requires the store regardless of
vblank). -/
theorem c5_no_increment_and_vblank_gated :
    (Ppu.write_mem ppuOamVblank 0x2004 0x42 cart0).map
      (fun r => (r.1.oam 5, r.1.oamAddr)) = some (0x42, 5) ∧
    (5 : Nat) ≠ (5 + 1) % 256 ∧
    (Ppu.write_mem ppuOamNoVblank 0x2004 0x42 cart0).map
      (fun r => (r.1.oam 5, r.1.oamAddr)) = some (0, 5) ∧
    (0 : Nat) ≠ 0x42 := by
  exact ⟨by decide, by decide, by decide, by decide⟩

/-! ## C6 -/

/-- A concrete MMC1 state whose control has been reprogrammed to 32 KiB
PRG switching (`prg_size_bit = false`), with a partially filled shift
register. -/
def mmc1s : Mmc1 :=
  { shift := 0x15, shiftCount := 3, mirroring := .vertical,
    prgSwapRangeBit := false, prgSizeBit := false, chrSizeBit := false,
    chrBank0 := 0, chrBank1 := 0, prgBank := 0,
    prgRam := fun _ => 0, chrRam := none }

/-- A cartridge with the `mmc1s` mapper state. -/
def mmc1cart : Cartridge := { rom := cart0.rom, mapper := .mmc1 mmc1s }

/-- Claim C6, amended (theorem): under MMC1, a CPU write to
`$8000-$FFFF` with bit 7 set clears the serial shift register
(accumulated value and write count) and nothing else — every other
mapper field, including the control bits `prg_size_bit`/
`prg_swap_range_bit` that encode the PRG mode, is unchanged, so the PRG
mode is NOT locked to fix-last-16KiB. -/
theorem c6_reset_clears_shift_only (c : Cartridge) (s : Mmc1) (address value : Nat)
    (hm : c.mapper = .mmc1 s) (ha : 0x8000 ≤ address) (hv : value &&& 0x80 ≠ 0) :
    c.write_mem_cpu address value =
      some { c with mapper := .mmc1 { s with shift := 0, shiftCount := 0 } } := by
  have h1 : ¬(address < 0x6000) := by omega
  have h2 : ¬(address < 0x8000) := by omega
  simp [Cartridge.write_mem_cpu, hm, h1, h2, hv]

/-- Claim C6, witness: writing `$80` to `$8000` on `mmc1cart`. -/
theorem c6_reset_clears_shift_only_witness :
    mmc1cart.write_mem_cpu 0x8000 0x80 =
      some { mmc1cart with mapper := .mmc1 { mmc1s with shift := 0, shiftCount := 0 } } := by
  exact c6_reset_clears_shift_only mmc1cart mmc1s 0x8000 0x80 rfl (by decide) (by decide)

/-- Claim C6, counterexample: on a mapper state in 32 KiB PRG mode
(`prg_size_bit = false`), a bit-7 write clears the shift register but
leaves `prg_size_bit = false` and `prg_swap_range_bit = false`; the
claimed "fix-last-16KiB" lock would require both bits set
(16 KiB mode with the last bank fixed at `$C000`). -/
theorem c6_control_not_locked :
    (mmc1cart.write_mem_cpu 0x8000 0x80).map (fun c =>
      match c.mapper with
      | .mmc1 s => some (s.shift, s.shiftCount, s.prgSizeBit, s.prgSwapRangeBit)
      | _ => none) = some (some (0, 0, false, false)) ∧
    ((false, false) : Bool × Bool) ≠ (true, true) := by
  exact ⟨by decide, by decide⟩

/-! ## C4 -/

/-- A PPU with `v = $2000`, increment 1, and nametable VRAM holding 7 at
`$2000` and 9 at `$2001` (via `cart0`'s vertical mirroring). -/
def ppu2007 : Ppu :=
  { Ppu.new with vram := fun i => if i = 0 then 7 else if i = 1 then 9 else 0,
                 reg := { Ppu.new.reg with v := 0x2000 } }

/-- Two consecutive CPU reads of `$2007` as the code performs them. -/
def read2007Twice (p : Ppu) (cart : Cartridge) : Option (Nat × Nat) := do
  let (v1, p1) ← p.read_mem cart 0x2007
  let (v2, _) ← p1.read_mem cart 0x2007
  some (v1, v2)

/-- Claim C4's spec-side `$2007` read, following the spec's words
("buffered VRAM read with palette-region direct-read exception;
v += inc"): the PPU keeps a read buffer; a read returns the buffer
(except that palette addresses `$3F00-$3FFF` are returned directly),
refills the buffer from the VRAM fetch at `v`, and increments `v`.
Returns (value read, new buffer, new PPU). -/
def specBufferedRead2007 (p : Ppu) (cart : Cartridge) (buf : Nat) :
    Option (Nat × Nat × Ppu) := do
  let addr := p.reg.v
  let fetched ← p.read_mem_ppu addr cart
  let value := if 0x3F00 ≤ addr ∧ addr ≤ 0x3FFF then fetched else buf
  some (value, fetched,
        { p with reg := { p.reg with v := (p.reg.v + p.vramAddrIncrement) % 0x10000 } })

/-- Two consecutive spec-side buffered reads starting from buffer `buf`. -/
def specRead2007Twice (p : Ppu) (cart : Cartridge) (buf : Nat) : Option (Nat × Nat) := do
  let (v1, b1, p1) ← specBufferedRead2007 p cart buf
  let (v2, _, _) ← specBufferedRead2007 p1 cart b1
  some (v1, v2)

/-- Claim C4, amended (theorem): a CPU read of `$2007` (with the
side-effect switch enabled) returns the VRAM value at `v` DIRECTLY —
there is no read buffer, for palette and non-palette addresses alike —
and then increments `v` by the configured increment. -/
theorem c4_read2007_direct (p : Ppu) (cart : Cartridge) (v : Nat)
    (hm : p.memReadMutEnabled = true)
    (hv : p.read_mem_ppu p.reg.v cart = some v) :
    p.read_mem cart 0x2007 =
      some (v, { p with reg := { p.reg with v := (p.reg.v + p.vramAddrIncrement) % 0x10000 } }) := by
  simp [Ppu.read_mem, hm, hv]

/-- Claim C4, witness: on `ppu2007` the read returns the byte at `$2000`
immediately (7) and bumps `v` to `$2001`. -/
theorem c4_read2007_direct_witness :
    ppu2007.read_mem cart0 0x2007 =
      some (7, { ppu2007 with reg := { ppu2007.reg with v := 0x2001 } }) := by
  exact c4_read2007_direct ppu2007 cart0 7 rfl (by decide)

/-- Claim C4, counterexample: with VRAM = 7,9 at `$2000/$2001`, the code
returns (7, 9) for two consecutive `$2007` reads, while the claimed
buffered behaviour returns (buf, 7) for EVERY possible initial buffer
byte — the second read alone (9 ≠ 7) refutes the claim. -/
theorem c4_not_buffered :
    read2007Twice ppu2007 cart0 = some (7, 9) ∧
    ((List.range 256).all fun b =>
      decide (specRead2007Twice ppu2007 cart0 b = some (b, 7))) = true ∧
    (9 : Nat) ≠ 7 := by
  exact ⟨by decide, by decide, by decide⟩

/-! ## C2 -/

/-- A CPU with SP = `$80` and a fully cleared status register. -/
def cpu2 : Cpu := { Cpu.new with reg := { Cpu.new.reg with sp := 0x80, status := 0 } }

/-- Claim C2, amended (theorem): `Cpu::reset` loads PC from the
little-endian vector at `$FFFC/$FFFD` and changes nothing else: SP, A, X,
Y and the status register (hence the Interrupt-Disable flag and bit 5)
keep their previous values, and the machine is unchanged.  (The
documented SP−3 / status effects exist only as the power-on constants in
`Cpu::new`: SP = `$FD`, status = `$24`.) -/
theorem c2_reset_loads_pc_only (cpu : Cpu) (m : Machine) (hi lo : Nat)
    (hhi : m.cartridge.read_mem_cpu 0xfffd = some hi)
    (hlo : m.cartridge.read_mem_cpu 0xfffc = some lo) :
    cpu.reset m = some ({ cpu with reg := { cpu.reg with pc := (hi <<< 8) + lo } }, m) := by
  simp [Cpu.reset, Cpu.perform_interrupt, Machine.read_mem, hhi, hlo]

/-- Claim C2, witness: on `machine0` (vector `$1234`) with `cpu2`. -/
theorem c2_reset_loads_pc_only_witness :
    cpu2.reset machine0 =
      some ({ cpu2 with reg := { cpu2.reg with pc := 0x1234 } }, machine0) := by
  exact c2_reset_loads_pc_only cpu2 machine0 0x12 0x34 (by decide) (by decide)

/-- Claim C2, counterexample: resetting `cpu2` (SP = `$80`, status = 0)
on `machine0` leaves SP = `$80` — not `$7D` = SP−3 — and leaves the
status 0, so the Interrupt-Disable flag (bit 2) and bit 5 are NOT set. -/
theorem c2_reset_ignores_sp_and_status :
    (Cpu.reset cpu2 machine0).map (fun r => (r.1.reg.pc, r.1.reg.sp, r.1.reg.status)) =
      some (0x1234, 0x80, 0) ∧
    (0x80 : Nat) ≠ (0x80 + 256 - 3) % 256 ∧
    Nat.testBit 0 2 = false ∧ Nat.testBit 0 5 = false := by
  exact ⟨by decide, by decide, by decide, by decide⟩


/-! ## C3 -/

/-- The pixel selection of `draw_pixel` never touches OAM. -/
theorem drawPixelChoose_oam (p : Ppu) (bg : Nat) (sp : Nat × SpritePriority × Bool) :
    (p.drawPixelChoose bg sp).1.oam = p.oam := by
  unfold Ppu.drawPixelChoose
  split_ifs <;> rfl

/-- `draw_pixel` can set `sprite0_hit` but never touches OAM. -/
theorem draw_pixel_oam (p p' : Ppu) (cart : Cartridge)
    (h : p.draw_pixel cart = some p') : p'.oam = p.oam := by
  simp only [Ppu.draw_pixel, Option.bind_eq_bind, Option.bind_eq_some] at h
  obtain ⟨sp, _, ci, _, h⟩ := h
  injection h with h
  subst h
  exact drawPixelChoose_oam p _ sp

/-- `load_bg_tile` only updates the background shift/latch registers. -/
theorem load_bg_tile_oam (p p' : Ppu) (cart : Cartridge)
    (h : p.load_bg_tile cart = some p') : p'.oam = p.oam := by
  simp only [Ppu.load_bg_tile, Option.bind_eq_bind, Option.bind_eq_some] at h
  obtain ⟨t, _, bl, _, bu, _, ab, _, h⟩ := h
  injection h with h
  subst h
  rfl

/-- `increment_v_vertical` only updates `v`. -/
theorem increment_v_vertical_oam (p : Ppu) :
    (p.increment_v_vertical).oam = p.oam := by
  unfold Ppu.increment_v_vertical
  split <;> rfl

/-- `increment_v_horizontal` only updates `v`. -/
theorem increment_v_horizontal_oam (p : Ppu) :
    (p.increment_v_horizontal).oam = p.oam := by
  unfold Ppu.increment_v_horizontal
  split <;> rfl

/-- `prepare_sprites` fills secondary OAM but only reads OAM. -/
theorem prepare_sprites_oam (p : Ppu) : (p.prepare_sprites).oam = p.oam := by
  simp only [Ppu.prepare_sprites]
  split <;> rfl

/-- The scroll-increment phase never touches OAM. -/
theorem stepDotScrollInc_oam (p : Ppu) : (p.stepDotScrollInc).oam = p.oam := by
  unfold Ppu.stepDotScrollInc
  split_ifs with h1 h2
  · exact increment_v_vertical_oam p
  · rfl
  · rfl

/-- The background-fetch phase never touches OAM. -/
theorem stepDotFetch_oam (p p' : Ppu) (cart : Cartridge)
    (h : p.stepDotFetch cart = some p') : p'.oam = p.oam := by
  unfold Ppu.stepDotFetch at h
  split at h
  · split at h
    · split at h
      · simp only [Option.bind_eq_bind, Option.bind_eq_some] at h
        obtain ⟨q, hq, h⟩ := h
        injection h with h
        subst h
        rw [increment_v_horizontal_oam, load_bg_tile_oam _ _ _ hq]
      · injection h with h; subst h; rfl
    · injection h with h; subst h; rfl
  · injection h with h; subst h; rfl

/-- The scroll phase of a rendered dot never touches OAM. -/
theorem stepDotScroll_oam (p p' : Ppu) (cart : Cartridge)
    (h : p.stepDotScroll cart = some p') : p'.oam = p.oam := by
  unfold Ppu.stepDotScroll at h
  split at h
  · split at h <;> (injection h with h; subst h; rfl)
  · split at h
    · rw [stepDotFetch_oam _ _ _ h, stepDotScrollInc_oam]
    · injection h with h; subst h; rfl

/-- The shift-register advance never touches OAM. -/
theorem stepDotShift_oam (p : Ppu) : (p.stepDotShift).oam = p.oam := by
  unfold Ppu.stepDotShift
  split <;> rfl

/-- The dots-257-320 phase resets `oam_addr` but never touches OAM. -/
theorem stepDotOamClear_oam (p : Ppu) : (p.stepDotOamClear).oam = p.oam := by
  unfold Ppu.stepDotOamClear
  split <;> rfl

/-- The whole rendering block of a dot never touches OAM. -/
theorem stepDotRender_oam (p p' : Ppu) (cart : Cartridge)
    (h : p.stepDotRender cart = some p') : p'.oam = p.oam := by
  simp only [Ppu.stepDotRender, Option.bind_eq_bind, Option.bind_eq_some] at h
  obtain ⟨p1, h1, h⟩ := h
  split at h
  · simp only [Option.bind_eq_some] at h
    obtain ⟨p2, h2, h⟩ := h
    injection h with h
    subst h
    rw [stepDotOamClear_oam, stepDotShift_oam, draw_pixel_oam _ _ _ h2,
        stepDotScroll_oam _ _ _ h1]
  · simp only [Option.some_bind] at h
    injection h with h
    subst h
    rw [stepDotOamClear_oam, stepDotShift_oam, stepDotScroll_oam _ _ _ h1]

/-- Projection of `ite` for `Ppu.oam`. -/
theorem oam_ite (c : Prop) [Decidable c] (a b : Ppu) :
    (if c then a else b).oam = if c then a.oam else b.oam := by
  split <;> rfl

/-- The dot/scanline advance (including sprite evaluation on scanline
wrap) never touches OAM. -/
theorem stepDotAdvance_oam (p : Ppu) : (p.stepDotAdvance).oam = p.oam := by
  unfold Ppu.stepDotAdvance
  simp [oam_ite, prepare_sprites_oam, ite_self]

/-- One whole PPU dot never touches OAM. -/
theorem stepDot_oam (p p' : Ppu) (cart : Cartridge)
    (h : p.stepDot cart = some p') : p'.oam = p.oam := by
  simp only [Ppu.stepDot] at h
  split at h
  · simp only [Option.bind_eq_bind, Option.bind_eq_some] at h
    obtain ⟨p1, h1, h⟩ := h
    injection h with h
    subst h
    rw [stepDotAdvance_oam, stepDotRender_oam _ _ _ h1]
  · simp only [Option.bind_eq_bind, Option.some_bind] at h
    injection h with h
    subst h
    rw [stepDotAdvance_oam]

/-- Any number of PPU dots never touches OAM. -/
theorem stepDots_oam (cart : Cartridge) :
    ∀ (n : Nat) (p p' : Ppu), p.stepDots cart n = some p' → p'.oam = p.oam := by
  intro n
  induction n with
  | zero =>
    intro p p' h
    injection h with h
    subst h
    rfl
  | succ n ih =>
    intro p p' h
    simp only [Ppu.stepDots, Option.bind_eq_bind, Option.bind_eq_some] at h
    obtain ⟨p1, h1, h2⟩ := h
    rw [ih p1 p' h2, stepDot_oam _ _ _ h1]

/-- `Ppu::step_cycle` never touches OAM. -/
theorem step_cycle_oam (p p' : Ppu) (cart : Cartridge) (count : Nat) (nmi : Bool)
    (h : p.step_cycle count cart = some (p', nmi)) : p'.oam = p.oam := by
  simp only [Ppu.step_cycle, Option.bind_eq_bind, Option.bind_eq_some] at h
  obtain ⟨p1, h1, h⟩ := h
  simp only [Option.some.injEq, Prod.mk.injEq] at h
  obtain ⟨hp, _⟩ := h
  subst hp
  exact stepDots_oam cart _ p p1 h1

/-- The CPU-cycle count `perform_dma` forwards to `step_cycle` is the
constant 513, never 514. -/
theorem perform_dma_cycles (p : Ppu) (cart : Cartridge) (mem : Nat → Nat) (start : Nat)
    (r : Ppu × Nat) (h : p.perform_dma cart mem start = some r) : r.2 = 513 := by
  simp only [Ppu.perform_dma] at h
  split at h
  · simp only [Option.bind_eq_bind, Option.bind_eq_some] at h
    obtain ⟨⟨p1, nmi⟩, _, h⟩ := h
    injection h with h
    subst h
    rfl
  · exact absurd h (by simp)

/-- After `perform_dma`, the OAM holds exactly the 256 source bytes. -/
theorem perform_dma_oam (p : Ppu) (cart : Cartridge) (mem : Nat → Nat) (start : Nat)
    (r : Ppu × Nat) (h : p.perform_dma cart mem start = some r) :
    r.1.oam = fun i => mem (start + i) := by
  simp only [Ppu.perform_dma] at h
  split at h
  · simp only [Option.bind_eq_bind, Option.bind_eq_some] at h
    obtain ⟨⟨p1, nmi⟩, h1, h⟩ := h
    injection h with h
    subst h
    simp only []
    exact step_cycle_oam _ _ _ _ _ h1
  · exact absurd h (by simp)

/-- Claim C3, amended (theorem): when a write of `HH < 8` to `$4014`
completes, every OAM byte `i < 256` equals the RAM byte at CPU address
`$HH00 + i`, and the CPU consumes exactly 513 cycles — ALWAYS, with no
514-cycle odd-alignment case (no alignment state exists in the code).
(`HH ≥ 8` would index past the 2 KiB RAM vector and abort.) -/
theorem c3_dma_copies_oam_513 (m : Machine) (hh : Nat) (m' : Machine)
    (hh8 : hh < 8) (h : m.write_mem 0x4014 hh = some m') :
    (∀ i, i < 256 → m'.ppu.oam i = m.ram (hh * 0x100 + i)) ∧
    (∀ (p : Ppu) (cart : Cartridge) (mem : Nat → Nat) (start : Nat) (r : Ppu × Nat),
        p.perform_dma cart mem start = some r → r.2 = 513) := by
  refine ⟨?_, fun p cart mem start r hr => perform_dma_cycles p cart mem start r hr⟩
  intro i _
  simp only [Machine.write_mem] at h
  norm_num at h
  simp only [Option.bind_eq_bind, Option.bind_eq_some] at h
  obtain ⟨⟨ppu1, cyc⟩, hdma, h⟩ := h
  injection h with h
  subst h
  have hoam := perform_dma_oam m.ppu m.cartridge m.ram (hh * 0x100) (ppu1, cyc) hdma
  simp only [] at hoam
  show ppu1.oam i = m.ram (hh * 0x100 + i)
  rw [hoam]

/-- A machine with rendering disabled, mid-vblank, and RAM holding
`(i + 11) mod 256` at address `i` — used to run a whole DMA concretely. -/
def machineDma : Machine :=
  { machine0 with ppu := { Ppu.new with backgroundEnabled := false, spritesEnabled := false,
                                        scanLine := 241, vblank := true },
                  ram := fun i => (i + 11) % 256 }

/-- Claim C3, witness: writing `$02` to `$4014` on `machineDma` completes
and OAM byte 5 equals RAM byte `$0205`. -/
theorem c3_dma_copies_oam_513_witness :
    ∃ m', Machine.write_mem machineDma 0x4014 2 = some m' ∧
      m'.ppu.oam 5 = machineDma.ram 0x205 := by
  have hs : (Machine.write_mem machineDma 0x4014 2).isSome = true := by decide
  obtain ⟨m', hm'⟩ := Option.isSome_iff_exists.mp hs
  exact ⟨m', hm', (c3_dma_copies_oam_513 machineDma 2 m' (by decide) hm').1 5 (by decide)⟩

/-- Claim C3, counterexample: on a PPU at an odd dot position (an "odd
cycle alignment"), the DMA still consumes 513 cycles, not 514 as the
claim requires. -/
theorem c3_no_514_on_odd :
    (Ppu.perform_dma { Ppu.new with backgroundEnabled := false, spritesEnabled := false,
                                    scanLine := 241, vblank := true, cycleCount := 1 }
        cart0 machineDma.ram 0x200).map Prod.snd = some 513 ∧
    (513 : Nat) ≠ 514 := by
  exact ⟨by decide, by decide⟩

/- ### Claim C7: APU four-step frame-counter IRQ timing -/

/-- `step_quarter_frame_clock` only touches the channels, not the frame
counter, mode or inhibit flag. -/
theorem step_quarter_preserves (a : Apu) :
    a.step_quarter_frame_clock.cycleCount = a.cycleCount ∧
    a.step_quarter_frame_clock.frameCounterSequence = a.frameCounterSequence ∧
    a.step_quarter_frame_clock.interruptInhibitFlag = a.interruptInhibitFlag :=
  ⟨rfl, rfl, rfl⟩

/-- `step_half_frame_clock` only touches the channels, not the frame
counter, mode or inhibit flag. -/
theorem step_half_preserves (a : Apu) :
    a.step_half_frame_clock.cycleCount = a.cycleCount ∧
    a.step_half_frame_clock.frameCounterSequence = a.frameCounterSequence ∧
    a.step_half_frame_clock.interruptInhibitFlag = a.interruptInhibitFlag :=
  ⟨rfl, rfl, rfl⟩

/-- Per-cycle channel stepping leaves the frame-counter state alone. -/
theorem stepChannels_preserves (a a' : Apu) (h : a.stepChannels = some a') :
    a'.cycleCount = a.cycleCount ∧
    a'.frameCounterSequence = a.frameCounterSequence ∧
    a'.interruptInhibitFlag = a.interruptInhibitFlag := by
  simp only [Apu.stepChannels] at h
  split at h
  · simp only [Option.bind_eq_bind, Option.bind_eq_some] at h
    obtain ⟨p1, _, p2, _, h⟩ := h
    injection h with h
    subst h
    exact ⟨rfl, rfl, rfl⟩
  · injection h with h
    subst h
    exact ⟨rfl, rfl, rfl⟩

theorem apu_cycleCount_ite (c : Prop) [Decidable c] (x y : Apu) :
    (if c then x else y).cycleCount = if c then x.cycleCount else y.cycleCount := by
  split <;> rfl

theorem apu_mode_ite (c : Prop) [Decidable c] (x y : Apu) :
    (if c then x else y).frameCounterSequence =
      if c then x.frameCounterSequence else y.frameCounterSequence := by
  split <;> rfl

theorem apu_inhibit_ite (c : Prop) [Decidable c] (x y : Apu) :
    (if c then x else y).interruptInhibitFlag =
      if c then x.interruptInhibitFlag else y.interruptInhibitFlag := by
  split <;> rfl

theorem step_quarter_cycleCount (a : Apu) :
    a.step_quarter_frame_clock.cycleCount = a.cycleCount := rfl

theorem step_quarter_mode (a : Apu) :
    a.step_quarter_frame_clock.frameCounterSequence = a.frameCounterSequence := rfl

theorem step_quarter_inhibit (a : Apu) :
    a.step_quarter_frame_clock.interruptInhibitFlag = a.interruptInhibitFlag := rfl

theorem step_half_cycleCount (a : Apu) :
    a.step_half_frame_clock.cycleCount = a.cycleCount := rfl

theorem step_half_mode (a : Apu) :
    a.step_half_frame_clock.frameCounterSequence = a.frameCounterSequence := rfl

theorem step_half_inhibit (a : Apu) :
    a.step_half_frame_clock.interruptInhibitFlag = a.interruptInhibitFlag := rfl

/-- One frame-counter tick in four-step mode: the count advances modulo
`29830` (the number of half-cycles per period, `14915 * 2`), the mode and
inhibit flag are unchanged, and the IRQ line goes high iff it was already
high or the new count is `0` or at least `29828` with IRQs not inhibited —
the source condition `cycle_count == 0 || cycle_count >= 14914 * 2`. -/
theorem stepFrameCounter_four (a : Apu) (irq : Bool)
    (hmode : a.frameCounterSequence = .fourStep) (hlt : a.cycleCount < 29830) :
    (a.stepFrameCounter irq).1.cycleCount = (a.cycleCount + 1) % 29830 ∧
    (a.stepFrameCounter irq).1.frameCounterSequence = .fourStep ∧
    (a.stepFrameCounter irq).1.interruptInhibitFlag = a.interruptInhibitFlag ∧
    ((a.stepFrameCounter irq).2 = true ↔
      (irq = true ∨ (((a.cycleCount + 1) % 29830 = 0 ∨ 29828 ≤ (a.cycleCount + 1) % 29830) ∧
        a.interruptInhibitFlag = false))) := by
  unfold Apu.stepFrameCounter
  simp only [hmode]
  by_cases hw : a.cycleCount + 1 ≥ 14915 * 2
  · have h0 : (a.cycleCount + 1) % 29830 = 0 := by omega
    simp only [if_pos hw, h0]
    simp [apu_cycleCount_ite, apu_mode_ite, apu_inhibit_ite,
          step_quarter_cycleCount, step_quarter_mode, step_quarter_inhibit,
          step_half_cycleCount, step_half_mode, step_half_inhibit]
    cases hi : a.interruptInhibitFlag <;> cases irq <;> simp
  · have h0 : (a.cycleCount + 1) % 29830 = a.cycleCount + 1 := by omega
    simp only [if_neg hw, h0]
    simp only [apu_cycleCount_ite, apu_mode_ite, apu_inhibit_ite,
          step_quarter_cycleCount, step_quarter_mode, step_quarter_inhibit,
          step_half_cycleCount, step_half_mode, step_half_inhibit, ite_self]
    refine ⟨trivial, trivial, trivial, ?_⟩
    split <;> cases irq <;> simp_all

/-- Claim C7, amended (theorem): in four-step mode with the inhibit flag
clear, one APU half-cycle step from any in-range count advances the count
to `(count + 1) % 29830` and reports the frame IRQ exactly on the three
final cycles of each 29830-cycle period — when the new count is `29828`,
`29829`, or `0` (the wrap at 29830) — not only at the period boundary as
the claim states. -/
theorem c7_irq_three_cycles (s : Apu) (r : Apu × Bool)
    (hmode : s.frameCounterSequence = .fourStep)
    (hinh : s.interruptInhibitFlag = false)
    (hlt : s.cycleCount < 29830)
    (h : s.step_cycle 1 = some r) :
    r.1.cycleCount = (s.cycleCount + 1) % 29830 ∧
    r.1.frameCounterSequence = .fourStep ∧
    r.1.interruptInhibitFlag = false ∧
    (r.2 = true ↔ (r.1.cycleCount = 0 ∨ 29828 ≤ r.1.cycleCount)) := by
  have h' : s.stepOneCycle false = some r := h
  simp only [Apu.stepOneCycle, Option.bind_eq_bind, Option.bind_eq_some] at h'
  obtain ⟨a1, h1, h2⟩ := h'
  injection h2 with h2
  obtain ⟨e1, e2, e3⟩ := stepChannels_preserves s a1 h1
  have H := stepFrameCounter_four a1 false (by rw [e2, hmode]) (by rw [e1]; exact hlt)
  rw [h2] at H
  have Hc := H.1
  rw [e1] at Hc
  have Hi := H.2.2.1
  rw [e3, hinh] at Hi
  have Hq := H.2.2.2
  rw [e1, e3, hinh] at Hq
  refine ⟨Hc, H.2.1, Hi, ?_⟩
  rw [Hq, Hc]
  simp

/-- Claim C7, witness: one step from the power-on APU (count 0) lands on
count 1 and does not fire the IRQ. -/
theorem c7_irq_three_cycles_witness :
    ∃ r, Apu.new.step_cycle 1 = some r ∧ r.1.cycleCount = 1 ∧
      (r.2 = true ↔ (r.1.cycleCount = 0 ∨ 29828 ≤ r.1.cycleCount)) := by
  have hs : (Apu.new.step_cycle 1).isSome = true := by decide
  obtain ⟨r, hr⟩ := Option.isSome_iff_exists.mp hs
  have H := c7_irq_three_cycles Apu.new r rfl rfl (by decide) hr
  exact ⟨r, hr, H.1.trans (by decide), H.2.2.2⟩

/-- An APU two cycles before the period boundary. -/
def apu29827 : Apu := { Apu.new with cycleCount := 29827 }

/-- Claim C7, counterexample: stepping from count 29827 fires the IRQ at
the new count 29828 — two cycles before the period boundary 29830 the
claim names as the only IRQ cycle. -/
theorem c7_not_only_at_29830 :
    (apu29827.step_cycle 1).map (fun r => (r.1.cycleCount, r.2)) = some (29828, true) ∧
    (29828 : Nat) ≠ 29830 ∧ (29828 : Nat) ≠ 0 := by
  exact ⟨by decide, by decide, by decide⟩

/-- Claim C10, witness: on the power-on PPU and `cart0`, address `$3F10`
with value `$2A` aliases `$3F00` in all three senses of the theorem. -/
theorem c10_palette_mirror_witness :
    Ppu.read_mem_ppu Ppu.new 0x3F10 cart0 = Ppu.read_mem_ppu Ppu.new 0x3F00 cart0 ∧
    Ppu.write_mem_ppu Ppu.new 0x3F10 0x2A cart0 =
      Ppu.write_mem_ppu Ppu.new 0x3F00 0x2A cart0 ∧
    (Ppu.write_mem_ppu Ppu.new 0x3F10 0x2A cart0).map
      (fun r => Ppu.read_mem_ppu r.1 0x3F00 r.2) = some (some 0x2A) := by
  have H := c10_palette_mirror Ppu.new cart0 0x3F10 0x2A (Or.inl rfl)
  exact ⟨H.1, H.2.1, H.2.2⟩
